import Mathlib

/-! # faceit-users: the user service, its validation pipeline and the Postgres store

A shallow embedding of `internal/user` (service.go, validation.go, mapping.go) and
`internal/storage` (postgres.go, user.go).

Conventions of the embedding

* A Go `error` is `Option GoError`: `none` is the nil error.
* Error values are compared by structure; package level error variables are told
  apart by their qualified name.
* Go strings are Lean strings, that is well formed Unicode text; `utf8.RuneCountInString`
  is then the number of characters.
* `context.Context` arguments are dropped: cancellation is part of how the driver answers.
* Stateful code passes the state explicitly. A callback handed to `WithTx` / `WithoutTx`
  works on the pair of the world and the variables its closure captures.
-/

namespace FaceitUsers

/-! ## Errors -/

/-- Go error values that occur in the program.
`leaf` is an error without `Unwrap`, `Is` or `As` (made by `errors.New`, or a driver error
that is not a `*pq.Error`); `pq` is a `*pq.Error` with its SQLSTATE code; `wrap` is the
value of `fmt.Errorf` with one `%w` verb, holding the formatted text and the wrapped
error; `validation` is `user.ValidationError`. -/
inductive GoError where
  | leaf (name : String) (text : String)
  | pq (code : String) (text : String)
  | wrap (text : String) (inner : GoError)
  | validation (cause : GoError) (details : List (String × String))
deriving DecidableEq, Repr

/-- Library functions the program calls and that are not part of the repository. -/
structure Lib where
  /-- The check `emailx.ValidateFast`. -/
  ValidateFast : String → Option GoError
  /-- The verb `%q` of package fmt on a string. -/
  Quote : String → String
  /-- The text `json.Marshal` gives for the struct with fields cause and details. -/
  Marshal : String → List (String × String) → String

/-- The method `Error()`; for `ValidationError` it is validation.go `ValidationError.Error`. -/
def GoError.Error (lib : Lib) : GoError → String
  | .leaf _ text => text
  | .pq _ text => text
  | .wrap text _ => text
  | .validation cause details => lib.Marshal (cause.Error lib) details

/-- The loop of `errors.Is` on a non-nil error and a non-nil target.
A `ValidationError` is not comparable and has no `Unwrap`; its method `Is`
(validation.go) asks `errors.Is(ve.Cause, err)`. -/
def GoError.is : GoError → GoError → Bool
  | .leaf name text, target => decide (GoError.leaf name text = target)
  | .pq code text, target => decide (GoError.pq code text = target)
  | .wrap text inner, target => decide (GoError.wrap text inner = target) || inner.is target
  | .validation cause _, target => cause.is target

/-- The function `errors.Is`. -/
def errorsIs : Option GoError → Option GoError → Bool
  | none, target => target.isNone
  | some _, none => false
  | some err, some target => err.is target

/-- The function `errors.As` with a target of type `*pq.Error`: the code and text of the
first `*pq.Error` on the `Unwrap` chain. -/
def GoError.asPq : GoError → Option (String × String)
  | .leaf _ _ => none
  | .pq code text => some (code, text)
  | .wrap _ inner => inner.asPq
  | .validation _ _ => none

/-- The `Unwrap` chain of an error, the error itself first. -/
def GoError.chain : GoError → List GoError
  | .wrap text inner => GoError.wrap text inner :: inner.chain
  | e => [e]

/-- The value of `fmt.Errorf(pre + "%w", err)` for a format whose text before the verb
is `pre`. -/
def errorfW (lib : Lib) (pre : String) (err : GoError) : GoError :=
  .wrap (pre ++ err.Error lib) err

/-- The variable `sql.ErrNoRows`. -/
def sqlErrNoRows : GoError := .leaf "sql.ErrNoRows" "sql: no rows in result set"

/-- Modelled from the spec: package `internal` declares the error taxonomy and its file is
not among the sources. `NotFound`, `BadInput` and `NotUnique` are distinct members; the
text of each is the member's name. -/
def ErrNotFound : GoError := .leaf "internal.ErrNotFound" "not found"

/-- Modelled from the spec: the taxonomy member `BadInput` of package `internal`. -/
def ErrBadInput : GoError := .leaf "internal.ErrBadInput" "bad input"

/-- Modelled from the spec: the taxonomy member `NotUnique` of package `internal`. -/
def ErrNotUnique : GoError := .leaf "internal.ErrNotUnique" "not unique"

/-- postgres.go `convertError`. -/
def convertError (lib : Lib) (err : Option GoError) : Option GoError :=
  if errorsIs err (some sqlErrNoRows) then
    some ErrNotFound
  else
    match err with
    | none => err
    | some e =>
      match e.asPq with
      | some (code, _) =>
        if code = "23000" ∨ code = "23001" ∨ code = "23502" ∨ code = "23503"
            ∨ code = "23514" ∨ code = "23P01" then
          some (.wrap (e.Error lib ++ ": " ++ ErrBadInput.Error lib) ErrBadInput)
        else if code = "23505" then
          some (.wrap (e.Error lib ++ ": " ++ ErrNotUnique.Error lib) ErrNotUnique)
        else
          err
      | none => err

/-! ## Validation (validation.go) -/

/-- The type `validationProperty`, a string. -/
abbrev validationProperty := String

/-- The method `validationProperty.String`. -/
def validationProperty.String (vp : validationProperty) : String := vp

def propertyFirstName : validationProperty := "FirstName"
def propertyLastName : validationProperty := "LastName"
def propertyNickname : validationProperty := "Nickname"
def propertyEmail : validationProperty := "Email"
def propertyCountry : validationProperty := "Country"
def propertyPassword : validationProperty := "Password"

/-- The predicate `unicode.IsSpace`: tab, line feed, vertical tab, form feed, carriage
return, space, U+0085, U+00A0 and the other code points with the White_Space property. -/
def isSpace (c : Char) : Bool :=
  let n := c.toNat
  (9 ≤ n && n ≤ 13) || n = 0x20 || n = 0x85 || n = 0xA0 || n = 0x1680
    || (0x2000 ≤ n && n ≤ 0x200A) || n = 0x2028 || n = 0x2029 || n = 0x202F
    || n = 0x205F || n = 0x3000

/-- The function `strings.TrimSpace`: the string without its leading and trailing
white space. -/
def TrimSpace (s : String) : String :=
  ⟨((s.data.dropWhile isSpace).reverse.dropWhile isSpace).reverse⟩

/-- The function `utf8.RuneCountInString`. -/
def RuneCountInString (s : String) : Int := s.length

/-- validation.go `validateBlankOrEmptyWithMaxLen`; the closure `func() error` takes the
unit argument. -/
def validateBlankOrEmptyWithMaxLen (value field : String) (maxlength : Int) :
    Unit → Option GoError :=
  fun _ =>
    if TrimSpace value = "" then
      some (.validation ErrBadInput [(field, "blank or empty")])
    else
      let length := RuneCountInString value
      if length > maxlength then
        some (.validation ErrBadInput [(field, "exceeds max length: " ++ toString maxlength)])
      else
        none

/-- validation.go `validateEmailFormat`. -/
def validateEmailFormat (lib : Lib) (value filed : String) : Unit → Option GoError :=
  fun _ =>
    match lib.ValidateFast value with
    | some err => some (.validation ErrBadInput [(filed, err.Error lib)])
    | none => none

/-! ## Records and entities -/

/-- A `time.Time`: the instant and whether its location is UTC. -/
structure Time where
  instant : Int
  utc : Bool
deriving DecidableEq, Repr

/-- The zero `time.Time`. -/
def Time.zero : Time := ⟨0, true⟩

/-- The method `Time.UTC`: the same instant with the location set to UTC. -/
def Time.UTC (t : Time) : Time := { t with utc := true }

/-- storage/user.go `User`. -/
structure User where
  ID : String
  Version : Int
  FirstName : String
  LastName : String
  Nickname : String
  Email : String
  Password : String
  Country : String
  CreatedAt : Time
  UpdatedAt : Time
deriving DecidableEq, Repr

/-- The zero value `User{}`. -/
def User.zero : User := ⟨"", 0, "", "", "", "", "", "", Time.zero, Time.zero⟩

/-- user/service.go `Entity`. -/
structure Entity where
  FirstName : String
  LastName : String
  Nickname : String
  Email : String
  Password : String
  Country : String
deriving DecidableEq, Repr

/-- The zero value `Entity{}`. -/
def Entity.zero : Entity := ⟨"", "", "", "", "", ""⟩

/-- mapping.go `userEntity`. -/
def userEntity (u : User) : Entity :=
  { Entity.zero with
    FirstName := u.FirstName
    LastName := u.LastName
    Nickname := u.Nickname
    Email := u.Email
    Country := u.Country }

/-- mapping.go `entityUser`. -/
def entityUser (e : Entity) : User :=
  { User.zero with
    FirstName := e.FirstName
    LastName := e.LastName
    Nickname := e.Nickname
    Email := e.Email
    Country := e.Country }

/-- service.go `Change`; both values are strings wherever the service makes one. -/
structure Change where
  Old : String
  New : String
deriving DecidableEq, Repr

/-- service.go `Changes`, a Go map from property name to `Change`: a finite map read by
key, with no order among its entries. -/
abbrev Changes := String → Option Change

/-- The map literal `Changes{}`. -/
def Changes.empty : Changes := fun _ => none

/-- service.go `Changes.Add`. -/
def Changes.Add (cs : Changes) (property : String) (o n : String) : Changes :=
  fun k => if k = property then some ⟨o, n⟩ else cs k

/-! ## The storage interface (service.go) -/

/-- A handle of an open `*sql.Tx`. -/
abbrev Tx := Nat

/-- Values of the interface `storage.Runner`: the nil runner (the one the test
transactioner hands out), `qRunner` on the connection pool and `txRunner` on an open
transaction. -/
inductive Runner where
  | nil
  | qRunner
  | txRunner (tx : Tx)
deriving DecidableEq, Repr

/-- A callback `func(runner storage.Runner) error` over the world `W`, with `L` the
variables the closure captures and assigns. -/
abbrev Callback (W L : Type) := Runner → W × L → Option GoError × (W × L)

/-- service.go `Storage` (with `Transactioner` embedded): any implementation of the
interface, each method a transition of the world. The methods are taken to return. -/
structure Storage (W : Type) where
  WithTx : {L : Type} → Callback W L → W × L → Option GoError × (W × L)
  WithoutTx : {L : Type} → Callback W L → W × L → Option GoError × (W × L)
  Persist : Runner → User → W → (String × Option GoError) × W
  Retrieve : Runner → String → Bool → W → (User × Option GoError) × W
  Update : Runner → String → User → W → (User × Option GoError) × W
  Delete : Runner → String → W → Option GoError × W

/-- service.go `Service`; the field may hold the nil interface. -/
structure Service (W : Type) where
  storage : Option (Storage W)

/-- service.go `NewService`. -/
def NewService {W : Type} (storage : Option (Storage W)) : Service W := ⟨storage⟩

/-- How a call ends: it returns a value, or it panics (a method called on the nil
storage). -/
inductive Outcome (α : Type) where
  | returned (a : α)
  | panicked

/-- The switch in the first loop of `Service.validate`: the check chosen for one
property, none for a property that is not known (`continue`). -/
def Service.validation (lib : Lib) (user : Entity) (validateProperty : validationProperty) :
    Option (Unit → Option GoError) :=
  if validateProperty = propertyFirstName then
    some (validateBlankOrEmptyWithMaxLen user.FirstName validateProperty.String 50)
  else if validateProperty = propertyLastName then
    some (validateBlankOrEmptyWithMaxLen user.LastName validateProperty.String 50)
  else if validateProperty = propertyNickname then
    some (validateBlankOrEmptyWithMaxLen user.Nickname validateProperty.String 30)
  else if validateProperty = propertyEmail then
    some (validateEmailFormat lib user.Email validateProperty.String)
  else if validateProperty = propertyPassword then
    some (validateBlankOrEmptyWithMaxLen user.Password validateProperty.String 20)
  else if validateProperty = propertyCountry then
    some (validateBlankOrEmptyWithMaxLen user.Country validateProperty.String 2)
  else
    none

/-- The second loop of `Service.validate`: run the checks in order and return the first
error. -/
def Service.runValidations : List (Unit → Option GoError) → Option GoError
  | [] => none
  | validation :: rest =>
    match validation () with
    | some err => some err
    | none => Service.runValidations rest

/-- service.go `Service.validate`. -/
def Service.validate (lib : Lib) (user : Entity) (validateProperties : List validationProperty) :
    Option GoError :=
  let validations := validateProperties.filterMap (Service.validation lib user)
  Service.runValidations validations

/-- The properties `Service.Create` validates, in the order of the call. -/
def createProperties : List validationProperty :=
  [propertyFirstName, propertyLastName, propertyNickname, propertyEmail, propertyCountry,
    propertyPassword]

/-- The properties `Service.Update` validates, in the order of the call. -/
def updateProperties : List validationProperty :=
  [propertyFirstName, propertyLastName, propertyNickname, propertyEmail, propertyCountry]

/-! ## The service (service.go) -/

/-- The record `newUser` the callback of `Service.Create` builds, `timeNow` being the
value of `time.Now()`. -/
def Service.createRecord (timeNow : Time) (user : Entity) : User :=
  let now := timeNow.UTC
  let newUser := entityUser user
  let newUser := { newUser with Password := user.Password }
  let newUser := { newUser with CreatedAt := now.UTC }
  let newUser := { newUser with UpdatedAt := now.UTC }
  newUser

/-- The callback of `Service.Create`; `clock` is `time.Now` and the captured variable
is `id`. -/
def Service.createAction {W : Type} (st : Storage W) (clock : W → Time) (user : Entity) :
    Callback W String :=
  fun runner (w, _) =>
    let newUser := Service.createRecord (clock w) user
    let ((id, err), w) := st.Persist runner newUser w
    (err, (w, id))

/-- service.go `Service.Create`. -/
def Service.Create {W : Type} (s : Service W) (lib : Lib) (clock : W → Time) (user : Entity)
    (w : W) : Outcome ((String × Option GoError) × W) :=
  match Service.validate lib user createProperties with
  | some err => .returned (("", some err), w)
  | none =>
    match s.storage with
    | none => .panicked
    | some st =>
      let (err, (w, id)) := st.WithTx (Service.createAction st clock user) (w, "")
      match err with
      | some err => .returned (("", some (errorfW lib "persist user: " err)), w)
      | none => .returned ((id, none), w)

/-- The callback of `Service.Get`; the captured variable is `u`. -/
def Service.getAction {W : Type} (st : Storage W) (id : String) : Callback W User :=
  fun runner (w, _) =>
    let ((u, err), w) := st.Retrieve runner id false w
    (err, (w, u))

/-- service.go `Service.Get`. -/
def Service.Get {W : Type} (s : Service W) (lib : Lib) (id : String) (w : W) :
    Outcome ((Entity × Option GoError) × W) :=
  match s.storage with
  | none => .panicked
  | some st =>
    let (err, (w, u)) := st.WithoutTx (Service.getAction st id) (w, User.zero)
    match err with
    | some err =>
      .returned ((Entity.zero, some (errorfW lib ("retrieve user " ++ lib.Quote id ++ ": ") err)), w)
    | none => .returned ((userEntity u, none), w)

/-- The five comparisons in the callback of `Service.Update`: the change record and the
old record after them. -/
def Service.diff (changes : Changes) (oldUser newUser : User) : Changes × User :=
  let (changes, oldUser) :=
    if oldUser.FirstName ≠ newUser.FirstName then
      (changes.Add "FirstName" oldUser.FirstName newUser.FirstName,
        { oldUser with FirstName := newUser.FirstName })
    else (changes, oldUser)
  let (changes, oldUser) :=
    if oldUser.LastName ≠ newUser.LastName then
      (changes.Add "LastName" oldUser.LastName newUser.LastName,
        { oldUser with LastName := newUser.LastName })
    else (changes, oldUser)
  let (changes, oldUser) :=
    if oldUser.Nickname ≠ newUser.Nickname then
      (changes.Add "Nickname" oldUser.Nickname newUser.Nickname,
        { oldUser with Nickname := newUser.Nickname })
    else (changes, oldUser)
  let (changes, oldUser) :=
    if oldUser.Email ≠ newUser.Email then
      (changes.Add "Email" oldUser.Email newUser.Email,
        { oldUser with Email := newUser.Email })
    else (changes, oldUser)
  let (changes, oldUser) :=
    if oldUser.Country ≠ newUser.Country then
      (changes.Add "Country" oldUser.Country newUser.Country,
        { oldUser with Country := newUser.Country })
    else (changes, oldUser)
  (changes, oldUser)

/-- The record `newUser` the callback of `Service.Update` builds, `timeNow` being the
value of `time.Now()`. -/
def Service.updateRecord (timeNow : Time) (user : Entity) : User :=
  let newUser := entityUser user
  let newUser := { newUser with UpdatedAt := timeNow.UTC }
  newUser

/-- The callback of `Service.Update`; the captured variable is `changes`. -/
def Service.updateAction {W : Type} (st : Storage W) (lib : Lib) (clock : W → Time)
    (id : String) (user : Entity) : Callback W Changes :=
  fun runner (w, changes) =>
    let newUser := Service.updateRecord (clock w) user
    let ((oldUser, err), w) := st.Update runner id newUser w
    match err with
    | some err => (some (errorfW lib ("update user " ++ lib.Quote id ++ ": ") err), (w, changes))
    | none => (none, (w, (Service.diff changes oldUser newUser).1))

/-- service.go `Service.Update`. -/
def Service.Update {W : Type} (s : Service W) (lib : Lib) (clock : W → Time) (id : String)
    (user : Entity) (w : W) : Outcome (Option GoError × W) :=
  match Service.validate lib user updateProperties with
  | some err => .returned (some err, w)
  | none =>
    let changes := Changes.empty
    match s.storage with
    | none => .panicked
    | some st =>
      let (err, (w, _)) := st.WithTx (Service.updateAction st lib clock id user) (w, changes)
      .returned (err, w)

/-- The callback of `Service.Delete`; it captures no variable it assigns. -/
def Service.deleteAction {W : Type} (st : Storage W) (id : String) : Callback W Unit :=
  fun runner (w, u) =>
    let (err, w) := st.Delete runner id w
    (err, (w, u))

/-- service.go `Service.Delete`. -/
def Service.Delete {W : Type} (s : Service W) (lib : Lib) (id : String) (w : W) :
    Outcome (Option GoError × W) :=
  match s.storage with
  | none => .panicked
  | some st =>
    let (err, (w, _)) := st.WithoutTx (Service.deleteAction st id) (w, ())
    match err with
    | some err => .returned (some (errorfW lib ("delete user " ++ lib.Quote id ++ ": ") err), w)
    | none => .returned (none, w)

/-! ## The Postgres store (postgres.go, user.go) -/

/-- A statement parameter. -/
inductive Value where
  | str (s : String)
  | time (t : Time)
deriving DecidableEq, Repr

/-- The seven columns the statements of `Retrieve` and `Update` scan. -/
structure UserRow where
  FirstName : String
  LastName : String
  Nickname : String
  Email : String
  Country : String
  CreatedAt : Time
  UpdatedAt : Time
deriving DecidableEq, Repr

/-- The database behind `*sql.DB`, as the driver answers. `BeginTx`, `Commit` and
`Rollback` are the methods of `*sql.DB` and `*sql.Tx`. The three scans are
`runner.QuerySingle(query, params...).Scan(dst...)` for the destinations the store uses:
one string, the seven user columns, one `sql.NullBool`; each gives the scanned values or
the error of `Scan`. The store only calls them on the runner its own `WithTx` or
`WithoutTx` supplied. -/
structure DB (W : Type) where
  BeginTx : W → Except GoError Tx × W
  Commit : Tx → W → Option GoError × W
  Rollback : Tx → W → Option GoError × W
  ScanString : Runner → String → List Value → W → Except GoError String × W
  ScanUser : Runner → String → List Value → W → Except GoError UserRow × W
  ScanNullBool : Runner → String → List Value → W → Except GoError (Option Bool) × W

/-- postgres.go `Postgres`. -/
structure Postgres (W : Type) where
  db : DB W

/-- postgres.go `Postgres.WithTx`. -/
def Postgres.WithTx {W L : Type} (p : Postgres W) (action : Callback W L) :
    W × L → Option GoError × (W × L) :=
  fun (w, l) =>
    match p.db.BeginTx w with
    | (.error err, w) => (some err, (w, l))
    | (.ok tx, w) =>
      match action (.txRunner tx) (w, l) with
      | (some err, (w, l)) =>
        let (_, w) := p.db.Rollback tx w
        (some err, (w, l))
      | (none, (w, l)) =>
        let (res, w) := p.db.Commit tx w
        (res, (w, l))

/-- postgres.go `Postgres.WithoutTx`. -/
def Postgres.WithoutTx {W L : Type} (_p : Postgres W) (action : Callback W L) :
    W × L → Option GoError × (W × L) :=
  fun s => action .qRunner s

/-- The statement of `Postgres.Persist`. -/
def persistQuery : String :=
  "\n\t\tINSERT INTO users(first_name, last_name, nickname, email, country, password, created_at, updated_at) \n\t\tVALUES ($1, $2, $3, $4, $5, CRYPT($6, GEN_SALT('md5')), $7, $8) \n\t\tRETURNING id"

/-- user.go `Postgres.Persist`. -/
def Postgres.Persist {W : Type} (p : Postgres W) (lib : Lib) (run : Runner) (user : User)
    (w : W) : (String × Option GoError) × W :=
  let (res, w) := p.db.ScanString run persistQuery
    [.str user.FirstName, .str user.LastName, .str user.Nickname, .str user.Email,
      .str user.Country, .str user.Password, .time user.CreatedAt, .time user.UpdatedAt] w
  let (id, scanErr) : String × Option GoError :=
    match res with
    | .ok id => (id, none)
    | .error err => ("", some err)
  match convertError lib scanErr with
  | some err => (("", some (errorfW lib "query single: " err)), w)
  | none => ((id, none), w)

/-- The statement of `Postgres.Retrieve`: the parts joined with a blank. -/
def retrieveQuery (forUpdate : Bool) : String :=
  let query :=
    ["\n\t\tSELECT first_name, last_name, nickname, email, country, created_at, updated_at\n\t\tFROM users\n\t\tWHERE id = $1"]
  let query := if forUpdate then query ++ ["FOR UPDATE"] else query
  " ".intercalate query

/-- The record `u` of `Retrieve` and `Update` after a scan without error. -/
def UserRow.into (row : UserRow) (u : User) : User :=
  { u with
    FirstName := row.FirstName
    LastName := row.LastName
    Nickname := row.Nickname
    Email := row.Email
    Country := row.Country
    CreatedAt := row.CreatedAt
    UpdatedAt := row.UpdatedAt }

/-- user.go `Postgres.Retrieve`. -/
def Postgres.Retrieve {W : Type} (p : Postgres W) (lib : Lib) (run : Runner) (id : String)
    (forUpdate : Bool) (w : W) : (User × Option GoError) × W :=
  let u := { User.zero with ID := id }
  let (res, w) := p.db.ScanUser run (retrieveQuery forUpdate) [.str id] w
  let (u, scanErr) : User × Option GoError :=
    match res with
    | .ok row => (row.into u, none)
    | .error err => (u, some err)
  match convertError lib scanErr with
  | some err => ((User.zero, some (errorfW lib "query single: " err)), w)
  | none => ((u, none), w)

/-- The statement of `Postgres.Update`. -/
def updateQuery : String :=
  "\n\t\tWITH old_state AS (\n\t\t\tSELECT first_name, last_name, nickname, email, country, created_at, updated_at \n\t\t\tFROM users \n\t\t\tWHERE id = $1\n\t\t)\n\t\t, update_state AS (\n\t\t\tUPDATE users \n\t\t\tSET \n\t\t\t\tfirst_name = $2, \n\t\t\t\tlast_name = $3, \n\t\t\t\tnickname = $4, \n\t\t\t\temail = $5, \n\t\t\t\tcountry = $6, \n\t\t\t\tupdated_at = $7\n\t\t\tWHERE id = $1\n\t\t)\n\t\tSELECT * FROM old_state"

/-- user.go `Postgres.Update`. -/
def Postgres.Update {W : Type} (p : Postgres W) (lib : Lib) (run : Runner) (id : String)
    (user : User) (w : W) : (User × Option GoError) × W :=
  let u := { User.zero with ID := id }
  let (res, w) := p.db.ScanUser run updateQuery
    [.str id, .str user.FirstName, .str user.LastName, .str user.Nickname, .str user.Email,
      .str user.Country, .time user.UpdatedAt] w
  let (u, scanErr) : User × Option GoError :=
    match res with
    | .ok row => (row.into u, none)
    | .error err => (u, some err)
  match convertError lib scanErr with
  | some err => ((User.zero, some (errorfW lib "query single: " err)), w)
  | none => ((u, none), w)

/-- The statement of `Postgres.Delete`. -/
def deleteQuery : String := "DELETE FROM users WHERE id = $1 RETURNING true"

/-- user.go `Postgres.Delete`. -/
def Postgres.Delete {W : Type} (p : Postgres W) (lib : Lib) (run : Runner) (id : String)
    (w : W) : Option GoError × W :=
  let (res, w) := p.db.ScanNullBool run deleteQuery [.str id] w
  match res with
  | .error err => (convertError lib (some err), w)
  | .ok _ => (none, w)

/-- The store `*Postgres` as a value of the interface `Storage` (cmd/initialize.go hands
it to `NewService`). -/
def Postgres.storage {W : Type} (p : Postgres W) (lib : Lib) : Storage W where
  WithTx := fun action => p.WithTx action
  WithoutTx := fun action => p.WithoutTx action
  Persist := p.Persist lib
  Retrieve := p.Retrieve lib
  Update := p.Update lib
  Delete := p.Delete lib

/-! ## The test double (service_test.go) -/

/-- service_test.go `testTransactioner.WithTx`. -/
def testTransactioner.WithTx {W L : Type} (call : Callback W L) :
    W × L → Option GoError × (W × L) :=
  call .nil

/-- service_test.go `testTransactioner.WithoutTx`. -/
def testTransactioner.WithoutTx {W L : Type} (call : Callback W L) :
    W × L → Option GoError × (W × L) :=
  call .nil

/-- service_test.go `testStorage`: the two transaction methods of `testTransactioner`,
the four record methods of the embedded (mock) storage. -/
def testStorage {W : Type} (mockStorage : Storage W) : Storage W :=
  { mockStorage with
    WithTx := fun call => testTransactioner.WithTx call
    WithoutTx := fun call => testTransactioner.WithoutTx call }

/-! ## Notions the statements use -/

/-- The change record `changes` at the end of one run of the callback of `Service.Update`
that starts, as `Service.Update` starts it, from the empty record `Changes{}`. -/
def Service.changeRecord {W : Type} (st : Storage W) (lib : Lib) (clock : W → Time)
    (id : String) (user : Entity) (runner : Runner) (w : W) : Changes :=
  (Service.updateAction st lib clock id user runner (w, Changes.empty)).2.2

/-- The error `r` wraps the error `e` with the context `ctx`: `e` is on the `Unwrap`
chain of `r`, every target that `e` matches under `errors.Is` is matched by `r`, and the
text of `r` is the context, a colon, a blank and the text of `e`. -/
def Wraps (lib : Lib) (ctx : String) (e r : GoError) : Prop :=
  e ∈ r.chain ∧ (∀ target, e.is target = true → r.is target = true) ∧
    r.Error lib = ctx ++ ": " ++ e.Error lib

/-! ## Observing calls -/

/-- What `Postgres.WithTx` does that can be seen from outside: it begins a transaction,
runs the callback, rolls back, commits. -/
inductive TxEvent where
  | begin
  | callback (runner : Runner)
  | rollback (tx : Tx)
  | commit (tx : Tx)
deriving DecidableEq, Repr

/-- The database `db` with a log: `BeginTx`, `Commit` and `Rollback` write down that they
were called and then do what `db` does. -/
def DB.logged {W : Type} (db : DB W) : DB (W × List TxEvent) where
  BeginTx := fun (w, log) =>
    let (res, w) := db.BeginTx w
    (res, (w, log ++ [.begin]))
  Commit := fun tx (w, log) =>
    let (res, w) := db.Commit tx w
    (res, (w, log ++ [.commit tx]))
  Rollback := fun tx (w, log) =>
    let (res, w) := db.Rollback tx w
    (res, (w, log ++ [.rollback tx]))
  ScanString := fun run q ps (w, log) =>
    let (res, w) := db.ScanString run q ps w
    (res, (w, log))
  ScanUser := fun run q ps (w, log) =>
    let (res, w) := db.ScanUser run q ps w
    (res, (w, log))
  ScanNullBool := fun run q ps (w, log) =>
    let (res, w) := db.ScanNullBool run q ps w
    (res, (w, log))

/-- The callback `action` with a log: each run writes down the runner it was given and
then does what `action` does. -/
def Callback.logged {W L : Type} (action : Callback W L) : Callback (W × List TxEvent) L :=
  fun runner ((w, log), l) =>
    let (err, (w, l)) := action runner (w, l)
    (err, ((w, log ++ [.callback runner]), l))

/-- A call of a method of `Storage`, with the arguments that matter. -/
inductive Call where
  | WithTx
  | WithoutTx
  | Persist (runner : Runner) (user : User)
  | Retrieve (runner : Runner) (id : String) (forUpdate : Bool)
  | Update (runner : Runner) (id : String) (user : User)
  | Delete (runner : Runner) (id : String)
deriving DecidableEq, Repr

/-- The callback `action` of the logged world, as a callback of the plain world that
captures the log as one more variable. -/
def Callback.captureLog {W L : Type} (action : Callback (W × List Call) L) :
    Callback W (List Call × L) :=
  fun runner (w, (log, l)) =>
    let (err, ((w, log), l)) := action runner ((w, log), l)
    (err, (w, (log, l)))

/-- The storage `st` with a log, in the way of a recording mock: each method writes down
that it was called and then does what `st` does. The log is out of reach of `st`. -/
def Storage.logged {W : Type} (st : Storage W) : Storage (W × List Call) where
  WithTx := fun action ((w, log), l) =>
    let (err, (w, (log, l))) := st.WithTx (Callback.captureLog action) (w, (log ++ [.WithTx], l))
    (err, ((w, log), l))
  WithoutTx := fun action ((w, log), l) =>
    let (err, (w, (log, l))) :=
      st.WithoutTx (Callback.captureLog action) (w, (log ++ [.WithoutTx], l))
    (err, ((w, log), l))
  Persist := fun runner user (w, log) =>
    let (res, w) := st.Persist runner user w
    (res, (w, log ++ [.Persist runner user]))
  Retrieve := fun runner id forUpdate (w, log) =>
    let (res, w) := st.Retrieve runner id forUpdate w
    (res, (w, log ++ [.Retrieve runner id forUpdate]))
  Update := fun runner id user (w, log) =>
    let (res, w) := st.Update runner id user w
    (res, (w, log ++ [.Update runner id user]))
  Delete := fun runner id (w, log) =>
    let (res, w) := st.Delete runner id w
    (res, (w, log ++ [.Delete runner id]))

/-! ## Concrete values for evaluation -/

/-- A database to evaluate the store with. The world counts the transactions begun;
`BeginTx` hands out the count as the handle; a scan for a string answers `1-2-3-4`; the
other scans find the row of the integration test under that identifier and no row under
any other. -/
def sampleDB : DB Nat where
  BeginTx := fun w => (.ok w, w + 1)
  Commit := fun _ w => (none, w)
  Rollback := fun _ w => (none, w)
  ScanString := fun _ _ _ w => (.ok "1-2-3-4", w)
  ScanUser := fun _ _ ps w =>
    if ps.head? = some (.str "1-2-3-4") then
      (.ok ⟨"f", "l", "n", "e@mail.com", "X1", ⟨1, true⟩, ⟨1, true⟩⟩, w)
    else (.error sqlErrNoRows, w)
  ScanNullBool := fun _ _ ps w =>
    if ps.head? = some (.str "1-2-3-4") then (.ok (some true), w)
    else (.error sqlErrNoRows, w)

/-- The error `assert.AnError` the test of a failing `Persist` uses. -/
def AnError : GoError := .leaf "assert.AnError" "assert.AnError general error for testing"

/-- A mock storage whose four record methods fail with `assert.AnError`. -/
def sampleFailingStorage : Storage Unit where
  WithTx := fun call => call .nil
  WithoutTx := fun call => call .nil
  Persist := fun _ _ w => (("", some AnError), w)
  Retrieve := fun _ _ _ w => ((User.zero, some AnError), w)
  Update := fun _ _ _ w => ((User.zero, some AnError), w)
  Delete := fun _ _ w => (some AnError, w)

/-- The entity of service_test.go. -/
def sampleEntity : Entity :=
  ⟨"John", "Doe", "johndoe", "johndoe@mail.com", "secret", "XX"⟩

/-- A database on which no transaction can begin. -/
def sampleDownDB : DB Nat :=
  { sampleDB with BeginTx := fun w => (.error (.leaf "driver.ErrBadConn" "driver: bad connection"), w) }

/-- A callback that counts its runs in the captured variable and fails when told to. -/
def sampleCallback (fail : Bool) : Callback Nat Nat :=
  fun _ (w, runs) => (if fail then some AnError else none, (w, runs + 1))

/-- The entity the integration test sends in its update. -/
def sampleUpdateEntity : Entity := ⟨"f2", "l2", "n2", "e@mail2.com", "", "X2"⟩


/-- The entity of service_test.go with a blank last name and a malformed email. -/
def sampleBadEntity : Entity :=
  ⟨"John", "  \t ", "johndoe", "bad@mail", "secret", "XX"⟩


/-- The record of John Doe. -/
def sampleRecord : User :=
  { User.zero with
    ID := "1-2-3-4", FirstName := "John", LastName := "Doe", Nickname := "johndoe",
    Email := "johndoe@mail.com", Country := "XX" }

/-- A mock storage on the world without state: `Persist` answers the identifier
`1-2-3-4`, `Retrieve` and `Update` answer the record of John Doe, nothing fails. The
transaction methods run the callback on the nil runner. -/
def sampleStorage : Storage Unit where
  WithTx := fun call => call .nil
  WithoutTx := fun call => call .nil
  Persist := fun _ _ w => (("1-2-3-4", none), w)
  Retrieve := fun _ _ _ w => ((sampleRecord, none), w)
  Update := fun _ _ _ w => ((sampleRecord, none), w)
  Delete := fun _ _ w => (none, w)

/-- John Doe with another first name and another country. -/
def sampleChangedEntity : Entity :=
  ⟨"Jack", "Doe", "johndoe", "johndoe@mail.com", "", "YY"⟩


/-- A library to evaluate the definitions with: the email check accepts the addresses
the tests of the repository use as valid and answers `invalid format` to any other, the
`%q` verb puts the text between double quotes, the marshalled text is built from the cause
and the first detail. -/
def sampleLib : Lib where
  ValidateFast := fun email =>
    if email = "johndoe@mail.com" ∨ email = "e@mail.com" ∨ email = "e@mail2.com" then none
    else some (.leaf "emailx.ErrInvalidFormat" "invalid format")
  Quote := fun s => "\"" ++ s ++ "\""
  Marshal := fun cause details =>
    match details with
    | [] => cause
    | (k, v) :: _ => cause ++ " " ++ k ++ ": " ++ v

/-- The entity the integration test creates. -/
def sampleCreateEntity : Entity := ⟨"f", "l", "n", "e@mail.com", "password", "X1"⟩

/-- A mock storage that keeps the records in a list. `Persist` gives the record the
number of records kept as its identifier and appends it; `Retrieve` and `Update` find the
record by identifier, `Update` puts the new values in its place; `Delete` drops it. The
transaction methods run the callback on the nil runner. -/
def memoryStorage : Storage (List User) where
  WithTx := fun call => call .nil
  WithoutTx := fun call => call .nil
  Persist := fun _ user w =>
    ((toString w.length, none), w ++ [{ user with ID := toString w.length }])
  Retrieve := fun _ id _ w =>
    match w.find? (fun u => u.ID = id) with
    | some u => ((u, none), w)
    | none => ((User.zero, some ErrNotFound), w)
  Update := fun _ id user w =>
    match w.find? (fun u => u.ID = id) with
    | some u =>
      ((u, none), w.map (fun r => if r.ID = id then
        { r with
          FirstName := user.FirstName, LastName := user.LastName, Nickname := user.Nickname,
          Email := user.Email, Country := user.Country, UpdatedAt := user.UpdatedAt }
        else r))
    | none => ((User.zero, some ErrNotFound), w)
  Delete := fun _ id w =>
    match w.find? (fun u => u.ID = id) with
    | some _ => (none, w.filter (fun u => u.ID ≠ id))
    | none => (some ErrNotFound, w)

/-- The error of a driver that lost its connection. -/
def sampleBadConn : GoError := .leaf "driver.ErrBadConn" "driver: bad connection"

/-- A database on which every commit fails. -/
def sampleCommitFailDB : DB Nat :=
  { sampleDB with Commit := fun _ w => (some sampleBadConn, w) }

/-- The failure kinds the error translator of the specification names: no matching row,
the violations not-null (23502), check (23514), foreign key (23503), exclusion (23P01),
and the unique violation (23505). -/
def namedKind (err : GoError) : Bool :=
  err.is sqlErrNoRows ||
    match err.asPq with
    | some (code, _) =>
      decide (code = "23502" ∨ code = "23514" ∨ code = "23503" ∨ code = "23P01" ∨ code = "23505")
    | none => false

/-! ## Theorems: the error translator -/

theorem GoError.is_eq_false_of_asPq {err : GoError} {p : String × String}
    (h : err.asPq = some p) (name text : String) : err.is (.leaf name text) = false := by
  induction err with
  | leaf n t => simp [GoError.asPq] at h
  | pq c t => simp [GoError.is]
  | wrap t inner ih =>
    simp only [GoError.asPq] at h
    simp [GoError.is, ih h]
  | validation c d _ => simp [GoError.asPq] at h

theorem convertError_of_pq (lib : Lib) {err : GoError} {code text : String}
    (h : err.asPq = some (code, text)) :
    convertError lib (some err) =
      if code = "23000" ∨ code = "23001" ∨ code = "23502" ∨ code = "23503"
          ∨ code = "23514" ∨ code = "23P01" then
        some (.wrap (err.Error lib ++ ": " ++ ErrBadInput.Error lib) ErrBadInput)
      else if code = "23505" then
        some (.wrap (err.Error lib ++ ": " ++ ErrNotUnique.Error lib) ErrNotUnique)
      else
        some err := by
  have hno : err.is sqlErrNoRows = false := GoError.is_eq_false_of_asPq h _ _
  simp [convertError, errorsIs, hno, h]

theorem GoError.is_of_mem_chain (name text : String) (err : GoError)
    (h : GoError.leaf name text ∈ err.chain) : err.is (.leaf name text) = true := by
  induction err with
  | leaf n t =>
    simp only [GoError.chain, List.mem_singleton] at h
    simp [GoError.is, h]
  | pq c t => simp [GoError.chain] at h
  | wrap t inner ih =>
    simp only [GoError.chain, List.mem_cons] at h
    rcases h with h | h
    · exact absurd h (by simp)
    · simp [GoError.is, ih h]
  | validation c d _ => simp [GoError.chain] at h

/-- C6: `convertError` turns an error that is `sql.ErrNoRows` (so every error with
`sql.ErrNoRows` on its `Unwrap` chain) into `ErrNotFound`; a pq error with code 23502,
23514, 23503 or 23P01 into an error that is `ErrBadInput` and is not `ErrNotUnique`; a pq
error with code 23505 into an error that is `ErrNotUnique` and is not `ErrBadInput`. -/
theorem convertError_classifies (lib : Lib) (err : GoError) :
    (errorsIs (some err) (some sqlErrNoRows) = true →
      convertError lib (some err) = some ErrNotFound) ∧
    (sqlErrNoRows ∈ err.chain → convertError lib (some err) = some ErrNotFound) ∧
    (∀ code text, err.asPq = some (code, text) →
      code = "23502" ∨ code = "23514" ∨ code = "23503" ∨ code = "23P01" →
      errorsIs (convertError lib (some err)) (some ErrBadInput) = true ∧
        errorsIs (convertError lib (some err)) (some ErrNotUnique) = false) ∧
    (∀ text, err.asPq = some ("23505", text) →
      errorsIs (convertError lib (some err)) (some ErrNotUnique) = true ∧
        errorsIs (convertError lib (some err)) (some ErrBadInput) = false) := by
  refine ⟨?_, ?_, ?_, ?_⟩
  · intro h
    simp [convertError, h]
  · intro h
    have his : err.is sqlErrNoRows = true := GoError.is_of_mem_chain _ _ err h
    simp [convertError, errorsIs, his]
  · intro code text h hc
    rw [convertError_of_pq lib h]
    rcases hc with hc | hc | hc | hc <;> subst hc <;>
      simp [errorsIs, GoError.is, ErrBadInput, ErrNotUnique]
  · intro text h
    rw [convertError_of_pq lib h]
    simp [errorsIs, GoError.is, ErrBadInput, ErrNotUnique]

theorem convertError_classifies_witness :
    convertError sampleLib (some (.wrap "scan: sql: no rows in result set" sqlErrNoRows))
        = some ErrNotFound ∧
      (errorsIs (convertError sampleLib (some (.pq "23514" "pq: check"))) (some ErrBadInput)
          = true ∧
        errorsIs (convertError sampleLib (some (.pq "23514" "pq: check"))) (some ErrNotUnique)
          = false) ∧
      (errorsIs (convertError sampleLib (some (.wrap "scan: pq: dup" (.pq "23505" "pq: dup"))))
          (some ErrNotUnique) = true ∧
        errorsIs (convertError sampleLib (some (.wrap "scan: pq: dup" (.pq "23505" "pq: dup"))))
          (some ErrBadInput) = false) :=
  ⟨(convertError_classifies sampleLib _).2.1 (by decide),
    (convertError_classifies sampleLib (.pq "23514" "pq: check")).2.2.1 _ _ rfl
      (Or.inr (Or.inl rfl)),
    (convertError_classifies sampleLib
      (.wrap "scan: pq: dup" (.pq "23505" "pq: dup"))).2.2.2 _ rfl⟩

/-- C7, as stated, fails: a pq error with code 23001 (restrict violation) is none of the
named kinds, yet `convertError` does not return it unchanged: the result is
`ErrBadInput`, which the failure was not. -/
theorem convertError_named_kinds_counterexample :
    namedKind (.pq "23001" "pq: restrict") = false ∧
      convertError sampleLib (some (.pq "23001" "pq: restrict"))
        ≠ some (.pq "23001" "pq: restrict") ∧
      errorsIs (some (.pq "23001" "pq: restrict")) (some ErrBadInput) = false ∧
      errorsIs (convertError sampleLib (some (.pq "23001" "pq: restrict"))) (some ErrBadInput)
        = true := by
  decide

/-- C7, amended: a failure that is not `sql.ErrNoRows` and is no pq error with one of the
codes 23000, 23001, 23502, 23503, 23514, 23P01, 23505 is returned unchanged, so it matches
exactly the targets it matched before; `convertError` of no error is no error. -/
theorem convertError_passes_through (lib : Lib) (err : Option GoError)
    (hrows : errorsIs err (some sqlErrNoRows) = false)
    (hcode : ∀ e code text, err = some e → e.asPq = some (code, text) →
      ¬ (code = "23000" ∨ code = "23001" ∨ code = "23502" ∨ code = "23503"
        ∨ code = "23514" ∨ code = "23P01" ∨ code = "23505")) :
    convertError lib err = err ∧
      (∀ target, errorsIs (convertError lib err) target = errorsIs err target) ∧
      convertError lib none = none := by
  have hnone : convertError lib none = none := by simp [convertError, errorsIs]
  have heq : convertError lib err = err := by
    cases err with
    | none => exact hnone
    | some e =>
      cases hp : e.asPq with
      | none => simp [convertError, hrows, hp]
      | some p =>
        obtain ⟨code, text⟩ := p
        have hc := hcode e code text rfl hp
        rw [convertError_of_pq lib hp]
        simp only [not_or] at hc
        obtain ⟨h1, h2, h3, h4, h5, h6, h7⟩ := hc
        simp [h1, h2, h3, h4, h5, h6, h7]
  exact ⟨heq, fun target => by rw [heq], hnone⟩

theorem convertError_passes_through_witness :
    convertError sampleLib (some (.wrap "exec: pq: syntax" (.pq "42601" "pq: syntax")))
        = some (.wrap "exec: pq: syntax" (.pq "42601" "pq: syntax")) ∧
      (∀ target,
        errorsIs (convertError sampleLib
            (some (.wrap "exec: pq: syntax" (.pq "42601" "pq: syntax")))) target
          = errorsIs (some (.wrap "exec: pq: syntax" (.pq "42601" "pq: syntax"))) target) ∧
      convertError sampleLib none = none :=
  convertError_passes_through sampleLib
    (some (.wrap "exec: pq: syntax" (.pq "42601" "pq: syntax"))) (by decide)
    (by
      intro e code text he hp
      cases he
      simp only [GoError.asPq, Option.some.injEq, Prod.mk.injEq] at hp
      obtain ⟨hcode, _⟩ := hp
      subst hcode
      decide)

/-! ## Theorems: validation -/

theorem dropWhile_reverse_dropWhile_eq_nil_iff (p : Char → Bool) (l : List Char) :
    (l.dropWhile p).reverse.dropWhile p = [] ↔ ∀ c ∈ l, p c = true := by
  rw [List.dropWhile_eq_nil_iff]
  constructor
  · intro h
    have hnil : l.dropWhile p = [] := by
      by_contra hne
      have hhead := List.head_dropWhile_not p l hne
      have hmem : (l.dropWhile p).head hne ∈ (l.dropWhile p).reverse :=
        List.mem_reverse.mpr (List.head_mem hne)
      rw [h _ hmem] at hhead
      exact absurd hhead (by simp)
    exact List.dropWhile_eq_nil_iff.mp hnil
  · intro h c hc
    have hc2 : c ∈ l.dropWhile p := List.mem_reverse.mp hc
    exact h c ((List.dropWhile_sublist p).subset hc2)

theorem TrimSpace_eq_empty_iff (s : String) :
    TrimSpace s = "" ↔ ∀ c ∈ s.data, isSpace c = true := by
  rw [← dropWhile_reverse_dropWhile_eq_nil_iff]
  unfold TrimSpace
  constructor
  · intro h
    have h2 := congrArg String.data h
    simpa using h2
  · intro h
    rw [h]
    rfl

/-- C3: the check built by `validateBlankOrEmptyWithMaxLen` returns no error exactly when
the value is not empty after `TrimSpace` and its number of characters is at most the
maximum; when the trimmed value is empty the error is a `ValidationError` with cause
`ErrBadInput` and details `field: "blank or empty"`, otherwise, when the value is too
long, one with details `field: "exceeds max length: <max>"`. -/
theorem validateBlankOrEmptyWithMaxLen_spec (value field : String) (maxlength : Int) :
    (validateBlankOrEmptyWithMaxLen value field maxlength () = none ↔
      TrimSpace value ≠ "" ∧ (value.length : Int) ≤ maxlength) ∧
    (TrimSpace value = "" →
      validateBlankOrEmptyWithMaxLen value field maxlength ()
        = some (.validation ErrBadInput [(field, "blank or empty")])) ∧
    (TrimSpace value ≠ "" → ¬ (value.length : Int) ≤ maxlength →
      validateBlankOrEmptyWithMaxLen value field maxlength ()
        = some (.validation ErrBadInput
            [(field, "exceeds max length: " ++ toString maxlength)])) := by
  refine ⟨?_, ?_, ?_⟩
  · unfold validateBlankOrEmptyWithMaxLen RuneCountInString
    by_cases hb : TrimSpace value = ""
    · simp [hb]
    · by_cases hl : (value.length : Int) > maxlength
      · simp [hb, hl]
      · simp only [hb, hl, if_false]
        simp only [gt_iff_lt, not_lt] at hl
        simp [hl, hb]
  · intro hb
    simp [validateBlankOrEmptyWithMaxLen, hb]
  · intro hb hl
    have hl2 : (value.length : Int) > maxlength := lt_of_not_ge hl
    simp [validateBlankOrEmptyWithMaxLen, RuneCountInString, hb, hl2]

theorem validateBlankOrEmptyWithMaxLen_spec_witness :
    validateBlankOrEmptyWithMaxLen "johndoe" "Nickname" 30 () = none ∧
      (validateBlankOrEmptyWithMaxLen "éé" "Country" 2 () = none ∧ "éé".utf8ByteSize = 4) ∧
      validateBlankOrEmptyWithMaxLen "  \t " "LastName" 50 ()
        = some (.validation ErrBadInput [("LastName", "blank or empty")]) ∧
      validateBlankOrEmptyWithMaxLen "012345678901234567890123456789X" "Nickname" 30 ()
        = some (.validation ErrBadInput [("Nickname", "exceeds max length: 30")]) :=
  ⟨(validateBlankOrEmptyWithMaxLen_spec "johndoe" "Nickname" 30).1.mpr
      ⟨by decide, by decide⟩,
    ⟨(validateBlankOrEmptyWithMaxLen_spec "éé" "Country" 2).1.mpr ⟨by decide, by decide⟩,
      by decide⟩,
    (validateBlankOrEmptyWithMaxLen_spec "  \t " "LastName" 50).2.1 (by decide),
    (validateBlankOrEmptyWithMaxLen_spec "012345678901234567890123456789X" "Nickname" 30).2.2
      (by decide) (by decide)⟩

theorem Service.validate_cons (lib : Lib) (user : Entity) (p : validationProperty)
    (ps : List validationProperty) :
    Service.validate lib user (p :: ps) =
      match Service.validate lib user [p] with
      | some err => some err
      | none => Service.validate lib user ps := by
  unfold Service.validate
  cases hv : Service.validation lib user p with
  | none => simp [hv, Service.runValidations]
  | some v =>
    cases hr : v () with
    | none => simp [hv, hr, Service.runValidations]
    | some e => simp [hv, hr, Service.runValidations]

theorem Service.validate_single_shape (lib : Lib) (user : Entity) (p : validationProperty)
    (err : GoError) (h : Service.validate lib user [p] = some err) :
    ∃ msg, err = .validation ErrBadInput [(p, msg)] := by
  have hblank : ∀ (value : String) (maxlength : Int) (e : GoError),
      validateBlankOrEmptyWithMaxLen value p maxlength () = some e →
      ∃ msg, e = .validation ErrBadInput [(p, msg)] := by
    intro value maxlength e he
    simp only [validateBlankOrEmptyWithMaxLen] at he
    split_ifs at he
    · exact ⟨_, (Option.some.inj he).symm⟩
    · exact ⟨_, (Option.some.inj he).symm⟩
  have hemail : ∀ (value : String) (e : GoError),
      validateEmailFormat lib value p () = some e →
      ∃ msg, e = .validation ErrBadInput [(p, msg)] := by
    intro value e he
    unfold validateEmailFormat at he
    cases hv : lib.ValidateFast value with
    | none => simp [hv] at he
    | some e2 =>
      simp only [hv] at he
      exact ⟨_, (Option.some.inj he).symm⟩
  unfold Service.validate Service.validation at h
  simp only [List.filterMap_cons, List.filterMap_nil, validationProperty.String] at h
  split_ifs at h <;> simp only [Service.runValidations] at h <;>
    first
    | (split at h
       · rename_i e he
         cases Option.some.inj h
         first
           | exact hblank _ _ _ he
           | exact hemail _ _ he
       · exact absurd h (by simp))
    | exact absurd h (by simp)

theorem Service.validate_first_failing (lib : Lib) (user : Entity) :
    ∀ ps : List validationProperty,
      (∃ p ∈ ps, Service.validate lib user [p] ≠ none) →
      ∃ pre f post msg, ps = pre ++ f :: post ∧
        (∀ q ∈ pre, Service.validate lib user [q] = none) ∧
        Service.validate lib user [f] ≠ none ∧
        Service.validate lib user ps = some (.validation ErrBadInput [(f, msg)]) := by
  intro ps
  induction ps with
  | nil => rintro ⟨p, hp, _⟩; simp at hp
  | cons a rest ih =>
    intro hex
    cases ha : Service.validate lib user [a] with
    | some e =>
      obtain ⟨msg, hmsg⟩ := Service.validate_single_shape lib user a e ha
      refine ⟨[], a, rest, msg, rfl, ?_, ?_, ?_⟩
      · intro q hq; simp at hq
      · simp [ha]
      · rw [Service.validate_cons, ha, hmsg]
    | none =>
      have hex2 : ∃ p ∈ rest, Service.validate lib user [p] ≠ none := by
        obtain ⟨p, hp, hne⟩ := hex
        rcases List.mem_cons.mp hp with rfl | hp
        · exact absurd ha hne
        · exact ⟨p, hp, hne⟩
      obtain ⟨pre, f, post, msg, hsplit, hpre, hf, hres⟩ := ih hex2
      refine ⟨a :: pre, f, post, msg, by simp [hsplit], ?_, hf, ?_⟩
      · intro q hq
        rcases List.mem_cons.mp hq with rfl | hq
        · exact ha
        · exact hpre q hq
      · rw [Service.validate_cons, ha]
        exact hres

/-- C1: when at least one of the checks of `Create` fails, `Service.Create` returns the
empty identifier and a `ValidationError` with cause `ErrBadInput` whose details hold one
key, the first failing property in the order FirstName, LastName, Nickname, Email,
Country, Password: every property before it passes. `Service.Update` does the same over
the order without Password. -/
theorem Service.reports_first_failing_field {W : Type} (s : Service W) (lib : Lib)
    (clock : W → Time) (id : String) (user : Entity) (w : W) :
    ((∃ p ∈ createProperties, Service.validate lib user [p] ≠ none) →
      ∃ pre f post msg, createProperties = pre ++ f :: post ∧
        (∀ q ∈ pre, Service.validate lib user [q] = none) ∧
        Service.validate lib user [f] ≠ none ∧
        s.Create lib clock user w
          = .returned (("", some (.validation ErrBadInput [(f, msg)])), w)) ∧
    ((∃ p ∈ updateProperties, Service.validate lib user [p] ≠ none) →
      ∃ pre f post msg, updateProperties = pre ++ f :: post ∧
        (∀ q ∈ pre, Service.validate lib user [q] = none) ∧
        Service.validate lib user [f] ≠ none ∧
        s.Update lib clock id user w
          = .returned (some (.validation ErrBadInput [(f, msg)]), w)) := by
  constructor
  · intro hex
    obtain ⟨pre, f, post, msg, hsplit, hpre, hf, hres⟩ :=
      Service.validate_first_failing lib user createProperties hex
    exact ⟨pre, f, post, msg, hsplit, hpre, hf, by simp [Service.Create, hres]⟩
  · intro hex
    obtain ⟨pre, f, post, msg, hsplit, hpre, hf, hres⟩ :=
      Service.validate_first_failing lib user updateProperties hex
    exact ⟨pre, f, post, msg, hsplit, hpre, hf, by simp [Service.Update, hres]⟩

theorem Service.reports_first_failing_field_witness :
    (∃ p ∈ createProperties, Service.validate sampleLib sampleBadEntity [p] ≠ none) ∧
      (∃ pre f post msg, createProperties = pre ++ f :: post ∧
        (∀ q ∈ pre, Service.validate sampleLib sampleBadEntity [q] = none) ∧
        Service.validate sampleLib sampleBadEntity [f] ≠ none ∧
        (NewService (none : Option (Storage Unit))).Create sampleLib (fun _ => Time.zero)
            sampleBadEntity ()
          = .returned (("", some (.validation ErrBadInput [(f, msg)])), ())) ∧
      (NewService (none : Option (Storage Unit))).Create sampleLib (fun _ => Time.zero)
          sampleBadEntity ()
        = .returned (("", some (.validation ErrBadInput [("LastName", "blank or empty")])), ()) :=
  ⟨⟨"LastName", by decide, by decide⟩,
    (Service.reports_first_failing_field (NewService (none : Option (Storage Unit))) sampleLib
      (fun _ => Time.zero) "1-2-3-4" sampleBadEntity ()).1 ⟨"LastName", by decide, by decide⟩,
    rfl⟩

/-! ## Theorems: the service -/

/-- C2: when validation fails, `Service.Create` and `Service.Update` return the validation
error and leave the world as it was, whatever the storage is, the nil storage included;
over a storage that logs its calls the log stays as it was: no method of the storage is
called. -/
theorem Service.validation_failure_calls_no_storage {W : Type} (lib : Lib) (clock : W → Time)
    (id : String) (user : Entity) (w : W) (err : GoError) :
    (Service.validate lib user createProperties = some err →
      (∀ storage : Option (Storage W),
        (NewService storage).Create lib clock user w = .returned (("", some err), w)) ∧
      (∀ (st : Storage W) (log : List Call),
        (NewService (some st.logged)).Create lib (fun s => clock s.1) user (w, log)
          = .returned (("", some err), (w, log)))) ∧
    (Service.validate lib user updateProperties = some err →
      (∀ storage : Option (Storage W),
        (NewService storage).Update lib clock id user w = .returned (some err, w)) ∧
      (∀ (st : Storage W) (log : List Call),
        (NewService (some st.logged)).Update lib (fun s => clock s.1) id user (w, log)
          = .returned (some err, (w, log)))) := by
  constructor
  · intro h
    exact ⟨fun storage => by simp [Service.Create, h],
      fun st log => by simp [Service.Create, h]⟩
  · intro h
    exact ⟨fun storage => by simp [Service.Update, h],
      fun st log => by simp [Service.Update, h]⟩

theorem Service.validation_failure_calls_no_storage_witness :
    (NewService (none : Option (Storage Unit))).Create sampleLib (fun _ => Time.zero)
        sampleBadEntity ()
      = .returned (("", some (.validation ErrBadInput [("LastName", "blank or empty")])), ()) ∧
    (NewService (some sampleStorage.logged)).Update sampleLib (fun _ => Time.zero) "1-2-3-4"
        sampleBadEntity ((), [])
      = .returned (some (.validation ErrBadInput [("LastName", "blank or empty")]), ((), [])) :=
  ⟨((Service.validation_failure_calls_no_storage sampleLib (fun _ => Time.zero) "1-2-3-4"
      sampleBadEntity () (.validation ErrBadInput [("LastName", "blank or empty")])).1
        (by decide)).1 none,
    ((Service.validation_failure_calls_no_storage sampleLib (fun _ => Time.zero) "1-2-3-4"
      sampleBadEntity () (.validation ErrBadInput [("LastName", "blank or empty")])).2
        (by decide)).2 sampleStorage []⟩

theorem Service.diff_apply (changes : Changes) (o n : User) (k : String) :
    (Service.diff changes o n).1 k =
      if k = "Country" ∧ o.Country ≠ n.Country then some ⟨o.Country, n.Country⟩
      else if k = "Email" ∧ o.Email ≠ n.Email then some ⟨o.Email, n.Email⟩
      else if k = "Nickname" ∧ o.Nickname ≠ n.Nickname then some ⟨o.Nickname, n.Nickname⟩
      else if k = "LastName" ∧ o.LastName ≠ n.LastName then some ⟨o.LastName, n.LastName⟩
      else if k = "FirstName" ∧ o.FirstName ≠ n.FirstName then
        some ⟨o.FirstName, n.FirstName⟩
      else changes k := by
  unfold Service.diff
  by_cases h1 : o.FirstName = n.FirstName <;> by_cases h2 : o.LastName = n.LastName <;>
    by_cases h3 : o.Nickname = n.Nickname <;> by_cases h4 : o.Email = n.Email <;>
    by_cases h5 : o.Country = n.Country <;>
    simp [h1, h2, h3, h4, h5, Changes.Add]

theorem Service.changeRecord_apply {W : Type} (st : Storage W) (lib : Lib) (clock : W → Time)
    (id : String) (user : Entity) (runner : Runner) (w : W) (o : User) (w' : W)
    (hupd : st.Update runner id (Service.updateRecord (clock w) user) w = ((o, none), w')) (k : String) :
    Service.changeRecord st lib clock id user runner w k =
      if k = "Country" ∧ o.Country ≠ user.Country then some ⟨o.Country, user.Country⟩
      else if k = "Email" ∧ o.Email ≠ user.Email then some ⟨o.Email, user.Email⟩
      else if k = "Nickname" ∧ o.Nickname ≠ user.Nickname then
        some ⟨o.Nickname, user.Nickname⟩
      else if k = "LastName" ∧ o.LastName ≠ user.LastName then
        some ⟨o.LastName, user.LastName⟩
      else if k = "FirstName" ∧ o.FirstName ≠ user.FirstName then
        some ⟨o.FirstName, user.FirstName⟩
      else none := by
  unfold Service.changeRecord Service.updateAction
  simp only [hupd]
  rw [Service.diff_apply]
  simp [Service.updateRecord, entityUser, Changes.empty]

/-- C4: after a run of the callback of `Service.Update` in which the store's `Update`
succeeds with old record `o`, the change record has a key exactly for each of FirstName,
LastName, Nickname, Email, Country whose value in `o` differs from the submitted one; it
has no key CreatedAt, UpdatedAt or Password, and it is empty when the five values are
unchanged. -/
theorem Service.changeRecord_keys {W : Type} (st : Storage W) (lib : Lib) (clock : W → Time)
    (id : String) (user : Entity) (runner : Runner) (w : W) (o : User) (w' : W)
    (_hvalid : Service.validate lib user updateProperties = none)
    (hupd : st.Update runner id (Service.updateRecord (clock w) user) w = ((o, none), w')) :
    (∀ k, (Service.changeRecord st lib clock id user runner w k).isSome = true ↔
      (k = "FirstName" ∧ o.FirstName ≠ user.FirstName) ∨
      (k = "LastName" ∧ o.LastName ≠ user.LastName) ∨
      (k = "Nickname" ∧ o.Nickname ≠ user.Nickname) ∨
      (k = "Email" ∧ o.Email ≠ user.Email) ∨
      (k = "Country" ∧ o.Country ≠ user.Country)) ∧
    Service.changeRecord st lib clock id user runner w "CreatedAt" = none ∧
    Service.changeRecord st lib clock id user runner w "UpdatedAt" = none ∧
    Service.changeRecord st lib clock id user runner w "Password" = none ∧
    (o.FirstName = user.FirstName → o.LastName = user.LastName →
      o.Nickname = user.Nickname → o.Email = user.Email → o.Country = user.Country →
      Service.changeRecord st lib clock id user runner w = Changes.empty) := by
  have happ := Service.changeRecord_apply st lib clock id user runner w o w' hupd
  refine ⟨?_, ?_, ?_, ?_, ?_⟩
  · intro k
    rw [happ k]
    split_ifs with h1 h2 h3 h4 h5 <;> simp_all
  · rw [happ]; simp
  · rw [happ]; simp
  · rw [happ]; simp
  · intro h1 h2 h3 h4 h5
    funext k
    rw [happ k]
    simp [h1, h2, h3, h4, h5, Changes.empty]

theorem Service.changeRecord_keys_witness :
    (∀ k, (Service.changeRecord sampleStorage sampleLib (fun _ => Time.zero) "1-2-3-4"
        sampleChangedEntity .nil () k).isSome = true ↔
      (k = "FirstName" ∧ sampleRecord.FirstName ≠ sampleChangedEntity.FirstName) ∨
      (k = "LastName" ∧ sampleRecord.LastName ≠ sampleChangedEntity.LastName) ∨
      (k = "Nickname" ∧ sampleRecord.Nickname ≠ sampleChangedEntity.Nickname) ∨
      (k = "Email" ∧ sampleRecord.Email ≠ sampleChangedEntity.Email) ∨
      (k = "Country" ∧ sampleRecord.Country ≠ sampleChangedEntity.Country)) ∧
    Service.changeRecord sampleStorage sampleLib (fun _ => Time.zero) "1-2-3-4"
      sampleChangedEntity .nil () "CreatedAt" = none ∧
    Service.changeRecord sampleStorage sampleLib (fun _ => Time.zero) "1-2-3-4"
      sampleChangedEntity .nil () "UpdatedAt" = none ∧
    Service.changeRecord sampleStorage sampleLib (fun _ => Time.zero) "1-2-3-4"
      sampleChangedEntity .nil () "Password" = none ∧
    (sampleRecord.FirstName = sampleChangedEntity.FirstName →
      sampleRecord.LastName = sampleChangedEntity.LastName →
      sampleRecord.Nickname = sampleChangedEntity.Nickname →
      sampleRecord.Email = sampleChangedEntity.Email →
      sampleRecord.Country = sampleChangedEntity.Country →
      Service.changeRecord sampleStorage sampleLib (fun _ => Time.zero) "1-2-3-4"
        sampleChangedEntity .nil () = Changes.empty) :=
  Service.changeRecord_keys sampleStorage sampleLib (fun _ => Time.zero) "1-2-3-4"
    sampleChangedEntity .nil () sampleRecord () (by decide) rfl

theorem Postgres.Update_of_row {W : Type} (p : Postgres W) (lib : Lib) (run : Runner)
    (id : String) (user : User) (w w1 : W) (row : UserRow)
    (hscan : p.db.ScanUser run updateQuery
      [.str id, .str user.FirstName, .str user.LastName, .str user.Nickname, .str user.Email,
        .str user.Country, .time user.UpdatedAt] w = (.ok row, w1)) :
    p.Update lib run id user w = ((row.into { User.zero with ID := id }, none), w1) := by
  simp [Postgres.Update, hscan, convertError, errorsIs]

/-- C5: after a run of the callback of `Service.Update` in which the store's `Update`
succeeds with old record `o`, every entry of the change record is, under the name of one
of the five fields, the pair of the value of that field in `o` and its value in the
submitted entity. Over the Postgres store, when the statement of `Update` scans the row
f, l, n, e@mail.com, X1 and the entity is f2, l2, n2, e@mail2.com, X2, the change record
has exactly the five entries with these pairs. -/
theorem Service.changeRecord_pairs {W : Type} (st : Storage W) (lib : Lib) (clock : W → Time)
    (id : String) (user : Entity) (runner : Runner) (w : W) (o : User) (w' : W)
    (_hvalid : Service.validate lib user updateProperties = none)
    (hupd : st.Update runner id (Service.updateRecord (clock w) user) w = ((o, none), w')) :
    (∀ k c, Service.changeRecord st lib clock id user runner w k = some c →
      (k = "FirstName" ∧ c = ⟨o.FirstName, user.FirstName⟩) ∨
      (k = "LastName" ∧ c = ⟨o.LastName, user.LastName⟩) ∨
      (k = "Nickname" ∧ c = ⟨o.Nickname, user.Nickname⟩) ∨
      (k = "Email" ∧ c = ⟨o.Email, user.Email⟩) ∨
      (k = "Country" ∧ c = ⟨o.Country, user.Country⟩)) ∧
    (∀ (p : Postgres W) (created updated : Time) (password : String),
      st = p.storage lib →
      user = ⟨"f2", "l2", "n2", "e@mail2.com", password, "X2"⟩ →
      p.db.ScanUser runner updateQuery
        [.str id, .str "f2", .str "l2", .str "n2", .str "e@mail2.com", .str "X2",
          .time (clock w).UTC] w
        = (.ok ⟨"f", "l", "n", "e@mail.com", "X1", created, updated⟩, w') →
      Service.changeRecord st lib clock id user runner w "FirstName" = some ⟨"f", "f2"⟩ ∧
      Service.changeRecord st lib clock id user runner w "LastName" = some ⟨"l", "l2"⟩ ∧
      Service.changeRecord st lib clock id user runner w "Nickname" = some ⟨"n", "n2"⟩ ∧
      Service.changeRecord st lib clock id user runner w "Email"
        = some ⟨"e@mail.com", "e@mail2.com"⟩ ∧
      Service.changeRecord st lib clock id user runner w "Country" = some ⟨"X1", "X2"⟩ ∧
      (∀ k, Service.changeRecord st lib clock id user runner w k ≠ none →
        k ∈ ["FirstName", "LastName", "Nickname", "Email", "Country"])) := by
  have happ := Service.changeRecord_apply st lib clock id user runner w o w' hupd
  constructor
  · intro k c hk
    rw [happ k] at hk
    split_ifs at hk with h1 h2 h3 h4 h5
    · exact Or.inr (Or.inr (Or.inr (Or.inr ⟨h1.1, (Option.some.inj hk).symm⟩)))
    · exact Or.inr (Or.inr (Or.inr (Or.inl ⟨h2.1, (Option.some.inj hk).symm⟩)))
    · exact Or.inr (Or.inr (Or.inl ⟨h3.1, (Option.some.inj hk).symm⟩))
    · exact Or.inr (Or.inl ⟨h4.1, (Option.some.inj hk).symm⟩)
    · exact Or.inl ⟨h5.1, (Option.some.inj hk).symm⟩
  · intro p created updated password hst huser hscan
    subst hst huser
    have hrow := Postgres.Update_of_row p lib runner id
      (Service.updateRecord (clock w) ⟨"f2", "l2", "n2", "e@mail2.com", password, "X2"⟩)
      w w' _ hscan
    have happ2 := Service.changeRecord_apply (p.storage lib) lib clock id
      ⟨"f2", "l2", "n2", "e@mail2.com", password, "X2"⟩ runner w _ w' hrow
    refine ⟨?_, ?_, ?_, ?_, ?_, ?_⟩
    · rw [happ2]; simp [UserRow.into]
    · rw [happ2]; simp [UserRow.into]
    · rw [happ2]; simp [UserRow.into]
    · rw [happ2]; simp [UserRow.into]
    · rw [happ2]; simp [UserRow.into]
    · intro k hk
      rw [happ2 k] at hk
      split_ifs at hk with h1 h2 h3 h4 h5
      · simp [h1.1]
      · simp [h2.1]
      · simp [h3.1]
      · simp [h4.1]
      · simp [h5.1]
      · exact absurd rfl hk

theorem Service.changeRecord_pairs_witness :
    (∀ k c, Service.changeRecord ((Postgres.mk sampleDB).storage sampleLib) sampleLib
        (fun _ => ⟨2, false⟩) "1-2-3-4" sampleUpdateEntity (.txRunner 0) 1 k = some c →
      (k = "FirstName" ∧ c = ⟨"f", "f2"⟩) ∨ (k = "LastName" ∧ c = ⟨"l", "l2"⟩) ∨
      (k = "Nickname" ∧ c = ⟨"n", "n2"⟩) ∨ (k = "Email" ∧ c = ⟨"e@mail.com", "e@mail2.com"⟩) ∨
      (k = "Country" ∧ c = ⟨"X1", "X2"⟩)) ∧
    Service.changeRecord ((Postgres.mk sampleDB).storage sampleLib) sampleLib
      (fun _ => ⟨2, false⟩) "1-2-3-4" sampleUpdateEntity (.txRunner 0) 1 "Email"
      = some ⟨"e@mail.com", "e@mail2.com"⟩ :=
  ⟨(Service.changeRecord_pairs ((Postgres.mk sampleDB).storage sampleLib) sampleLib
      (fun _ => ⟨2, false⟩) "1-2-3-4" sampleUpdateEntity (.txRunner 0) 1
      (UserRow.into ⟨"f", "l", "n", "e@mail.com", "X1", ⟨1, true⟩, ⟨1, true⟩⟩
        { User.zero with ID := "1-2-3-4" }) 1 (by decide) rfl).1,
    ((Service.changeRecord_pairs ((Postgres.mk sampleDB).storage sampleLib) sampleLib
      (fun _ => ⟨2, false⟩) "1-2-3-4" sampleUpdateEntity (.txRunner 0) 1
      (UserRow.into ⟨"f", "l", "n", "e@mail.com", "X1", ⟨1, true⟩, ⟨1, true⟩⟩
        { User.zero with ID := "1-2-3-4" }) 1 (by decide) rfl).2
      (Postgres.mk sampleDB) ⟨1, true⟩ ⟨1, true⟩ "" rfl rfl rfl).2.2.2.1⟩

/-! ## Theorems: failures of the store -/

theorem convertError_of_noRows (lib : Lib) (e : GoError)
    (h : errorsIs (some e) (some sqlErrNoRows) = true) :
    convertError lib (some e) = some ErrNotFound := by
  simp [convertError, h]

theorem errorfW_is (lib : Lib) (pre : String) (e target : GoError) (h : e.is target = true) :
    (errorfW lib pre e).is target = true := by
  simp [errorfW, GoError.is, h]

theorem errorfW_wraps (lib : Lib) (ctx : String) (e : GoError) :
    Wraps lib ctx e (errorfW lib (ctx ++ ": ") e) := by
  refine ⟨?_, fun target h => errorfW_is lib _ e target h, ?_⟩
  · cases e <;> simp [errorfW, GoError.chain]
  · simp [errorfW, GoError.Error, String.append_assoc]

theorem Postgres.Retrieve_of_noRows {W : Type} (p : Postgres W) (lib : Lib) (run : Runner)
    (id : String) (forUpdate : Bool) (w w1 : W) (e : GoError)
    (hscan : p.db.ScanUser run (retrieveQuery forUpdate) [.str id] w = (.error e, w1))
    (hrows : errorsIs (some e) (some sqlErrNoRows) = true) :
    p.Retrieve lib run id forUpdate w
      = ((User.zero, some (errorfW lib "query single: " ErrNotFound)), w1) := by
  simp [Postgres.Retrieve, hscan, convertError_of_noRows lib e hrows]

theorem Postgres.Update_of_noRows {W : Type} (p : Postgres W) (lib : Lib) (run : Runner)
    (id : String) (user : User) (w w1 : W) (e : GoError)
    (hscan : p.db.ScanUser run updateQuery
      [.str id, .str user.FirstName, .str user.LastName, .str user.Nickname, .str user.Email,
        .str user.Country, .time user.UpdatedAt] w = (.error e, w1))
    (hrows : errorsIs (some e) (some sqlErrNoRows) = true) :
    p.Update lib run id user w
      = ((User.zero, some (errorfW lib "query single: " ErrNotFound)), w1) := by
  simp [Postgres.Update, hscan, convertError_of_noRows lib e hrows]

/-- C8: over the Postgres store, when the single-row statement of the operation finds no
row (its `Scan` fails with an error that is `sql.ErrNoRows`), `Service.Get`,
`Service.Update` (for a valid entity, the transaction begun) and `Service.Delete` each
return an error that is `ErrNotFound`; `Get` returns the zero entity with it. -/
theorem Service.not_found_of_no_rows {W : Type} (p : Postgres W) (lib : Lib)
    (clock : W → Time) (id : String) (user : Entity) (w : W) :
    (∀ e w1, p.db.ScanUser .qRunner (retrieveQuery false) [.str id] w = (.error e, w1) →
      errorsIs (some e) (some sqlErrNoRows) = true →
      ∃ r, (NewService (some (p.storage lib))).Get lib id w
          = .returned ((Entity.zero, some r), w1) ∧
        errorsIs (some r) (some ErrNotFound) = true) ∧
    (∀ tx e w1 w2, Service.validate lib user updateProperties = none →
      p.db.BeginTx w = (.ok tx, w1) →
      p.db.ScanUser (.txRunner tx) updateQuery
        [.str id, .str user.FirstName, .str user.LastName, .str user.Nickname,
          .str user.Email, .str user.Country, .time (clock w1).UTC] w1 = (.error e, w2) →
      errorsIs (some e) (some sqlErrNoRows) = true →
      ∃ r, (NewService (some (p.storage lib))).Update lib clock id user w
          = .returned (some r, (p.db.Rollback tx w2).2) ∧
        errorsIs (some r) (some ErrNotFound) = true) ∧
    (∀ e w1, p.db.ScanNullBool .qRunner deleteQuery [.str id] w = (.error e, w1) →
      errorsIs (some e) (some sqlErrNoRows) = true →
      ∃ r, (NewService (some (p.storage lib))).Delete lib id w = .returned (some r, w1) ∧
        errorsIs (some r) (some ErrNotFound) = true) := by
  have hnf : ErrNotFound.is ErrNotFound = true := by decide
  refine ⟨?_, ?_, ?_⟩
  · intro e w1 hscan hrows
    have hret := Postgres.Retrieve_of_noRows p lib .qRunner id false w w1 e hscan hrows
    refine ⟨errorfW lib ("retrieve user " ++ lib.Quote id ++ ": ")
      (errorfW lib "query single: " ErrNotFound), ?_, ?_⟩
    · simp [NewService, Service.Get, Postgres.storage, Postgres.WithoutTx, Service.getAction,
        hret]
    · exact errorfW_is lib _ _ _ (errorfW_is lib _ _ _ hnf)
  · intro tx e w1 w2 hvalid hbegin hscan hrows
    have hupd := Postgres.Update_of_noRows p lib (.txRunner tx) id
      (Service.updateRecord (clock w1) user) w1 w2 e
      (by simpa [Service.updateRecord, entityUser] using hscan) hrows
    refine ⟨errorfW lib ("update user " ++ lib.Quote id ++ ": ")
      (errorfW lib "query single: " ErrNotFound), ?_, ?_⟩
    · simp [NewService, Service.Update, hvalid, Postgres.storage, Postgres.WithTx, hbegin,
        Service.updateAction, hupd]
    · exact errorfW_is lib _ _ _ (errorfW_is lib _ _ _ hnf)
  · intro e w1 hscan hrows
    refine ⟨errorfW lib ("delete user " ++ lib.Quote id ++ ": ") ErrNotFound, ?_, ?_⟩
    · simp [NewService, Service.Delete, Postgres.storage, Postgres.WithoutTx,
        Service.deleteAction, Postgres.Delete, hscan, convertError_of_noRows lib e hrows]
    · exact errorfW_is lib _ _ _ hnf

theorem Service.not_found_of_no_rows_witness :
    (∃ r, (NewService (some ((Postgres.mk sampleDB).storage sampleLib))).Get sampleLib "0-0" 0
        = .returned ((Entity.zero, some r), 0) ∧
      errorsIs (some r) (some ErrNotFound) = true) ∧
    (∃ r, (NewService (some ((Postgres.mk sampleDB).storage sampleLib))).Update sampleLib
          (fun _ => ⟨2, false⟩) "0-0" sampleUpdateEntity 0
        = .returned (some r, 1) ∧
      errorsIs (some r) (some ErrNotFound) = true) ∧
    (∃ r, (NewService (some ((Postgres.mk sampleDB).storage sampleLib))).Delete sampleLib "0-0" 0
        = .returned (some r, 0) ∧
      errorsIs (some r) (some ErrNotFound) = true) :=
  ⟨(Service.not_found_of_no_rows (Postgres.mk sampleDB) sampleLib (fun _ => ⟨2, false⟩) "0-0"
      sampleUpdateEntity 0).1 sqlErrNoRows 0 rfl (by decide),
    (Service.not_found_of_no_rows (Postgres.mk sampleDB) sampleLib (fun _ => ⟨2, false⟩) "0-0"
      sampleUpdateEntity 0).2.1 0 sqlErrNoRows 1 1 (by decide) rfl rfl (by decide),
    (Service.not_found_of_no_rows (Postgres.mk sampleDB) sampleLib (fun _ => ⟨2, false⟩) "0-0"
      sampleUpdateEntity 0).2.2 sqlErrNoRows 0 rfl (by decide)⟩

/-- An error `e` returned by one of the four record operations (`Persist`, `Retrieve`,
`Update`, `Delete`) inside `Create`, `Get`, `Update` or `Delete` comes back from the
service operation as a non-nil error that wraps `e` (`e` on its chain, every `errors.Is`
match of `e` kept) with the text `persist user`, or `retrieve user`, `update user`,
`delete user` and the quoted identifier, in front. This holds over the test double with
any mock storage and over the Postgres store once the transaction is begun. It says
nothing of an error that `WithTx` itself returns. -/
theorem Service.store_error_wrapped {W : Type} (lib : Lib) (clock : W → Time) (id : String)
    (user : Entity) (w : W) (e : GoError) :
    (∀ (mock : Storage W) (w' : W),
      (∀ id', Service.validate lib user createProperties = none →
        mock.Persist .nil (Service.createRecord (clock w) user) w = ((id', some e), w') →
        ∃ r, (NewService (some (testStorage mock))).Create lib clock user w
            = .returned (("", some r), w') ∧
          Wraps lib "persist user" e r) ∧
      (∀ u, mock.Retrieve .nil id false w = ((u, some e), w') →
        ∃ r, (NewService (some (testStorage mock))).Get lib id w
            = .returned ((Entity.zero, some r), w') ∧
          Wraps lib ("retrieve user " ++ lib.Quote id) e r) ∧
      (∀ o, Service.validate lib user updateProperties = none →
        mock.Update .nil id (Service.updateRecord (clock w) user) w = ((o, some e), w') →
        ∃ r, (NewService (some (testStorage mock))).Update lib clock id user w
            = .returned (some r, w') ∧
          Wraps lib ("update user " ++ lib.Quote id) e r) ∧
      (mock.Delete .nil id w = (some e, w') →
        ∃ r, (NewService (some (testStorage mock))).Delete lib id w = .returned (some r, w') ∧
          Wraps lib ("delete user " ++ lib.Quote id) e r)) ∧
    (∀ (p : Postgres W) (tx : Tx) (w1 w' : W),
      (∀ id', Service.validate lib user createProperties = none →
        p.db.BeginTx w = (.ok tx, w1) →
        p.Persist lib (.txRunner tx) (Service.createRecord (clock w1) user) w1
          = ((id', some e), w') →
        ∃ r, (NewService (some (p.storage lib))).Create lib clock user w
            = .returned (("", some r), (p.db.Rollback tx w').2) ∧
          Wraps lib "persist user" e r) ∧
      (∀ u, p.Retrieve lib .qRunner id false w = ((u, some e), w') →
        ∃ r, (NewService (some (p.storage lib))).Get lib id w
            = .returned ((Entity.zero, some r), w') ∧
          Wraps lib ("retrieve user " ++ lib.Quote id) e r) ∧
      (∀ o, Service.validate lib user updateProperties = none →
        p.db.BeginTx w = (.ok tx, w1) →
        p.Update lib (.txRunner tx) id (Service.updateRecord (clock w1) user) w1
          = ((o, some e), w') →
        ∃ r, (NewService (some (p.storage lib))).Update lib clock id user w
            = .returned (some r, (p.db.Rollback tx w').2) ∧
          Wraps lib ("update user " ++ lib.Quote id) e r) ∧
      (p.Delete lib .qRunner id w = (some e, w') →
        ∃ r, (NewService (some (p.storage lib))).Delete lib id w = .returned (some r, w') ∧
          Wraps lib ("delete user " ++ lib.Quote id) e r)) := by
  constructor
  · intro mock w'
    refine ⟨?_, ?_, ?_, ?_⟩
    · intro id' hvalid hop
      exact ⟨_, by simp [NewService, Service.Create, hvalid, testStorage,
        testTransactioner.WithTx, Service.createAction, hop], errorfW_wraps lib _ e⟩
    · intro u hop
      exact ⟨_, by simp [NewService, Service.Get, testStorage, testTransactioner.WithoutTx,
        Service.getAction, hop], errorfW_wraps lib _ e⟩
    · intro o hvalid hop
      exact ⟨_, by simp [NewService, Service.Update, hvalid, testStorage,
        testTransactioner.WithTx, Service.updateAction, hop], errorfW_wraps lib _ e⟩
    · intro hop
      exact ⟨_, by simp [NewService, Service.Delete, testStorage, testTransactioner.WithoutTx,
        Service.deleteAction, hop], errorfW_wraps lib _ e⟩
  · intro p tx w1 w'
    refine ⟨?_, ?_, ?_, ?_⟩
    · intro id' hvalid hbegin hop
      exact ⟨_, by simp [NewService, Service.Create, hvalid, Postgres.storage, Postgres.WithTx,
        hbegin, Service.createAction, hop], errorfW_wraps lib _ e⟩
    · intro u hop
      exact ⟨_, by simp [NewService, Service.Get, Postgres.storage, Postgres.WithoutTx,
        Service.getAction, hop], errorfW_wraps lib _ e⟩
    · intro o hvalid hbegin hop
      exact ⟨_, by simp [NewService, Service.Update, hvalid, Postgres.storage, Postgres.WithTx,
        hbegin, Service.updateAction, hop], errorfW_wraps lib _ e⟩
    · intro hop
      exact ⟨_, by simp [NewService, Service.Delete, Postgres.storage, Postgres.WithoutTx,
        Service.deleteAction, hop], errorfW_wraps lib _ e⟩

theorem Service.store_error_wrapped_witness :
    (∃ r, (NewService (some (testStorage sampleFailingStorage))).Create sampleLib
          (fun _ => Time.zero) sampleEntity ()
        = .returned (("", some r), ()) ∧
      Wraps sampleLib "persist user" AnError r) ∧
    (∃ r, (NewService (some ((Postgres.mk sampleDB).storage sampleLib))).Update sampleLib
          (fun _ => ⟨2, false⟩) "0-0" sampleUpdateEntity 0
        = .returned (some r, ((Postgres.mk sampleDB).db.Rollback 0 1).2) ∧
      Wraps sampleLib ("update user " ++ sampleLib.Quote "0-0")
        (errorfW sampleLib "query single: " ErrNotFound) r) :=
  ⟨((Service.store_error_wrapped sampleLib (fun _ => Time.zero) "0-0" sampleEntity ()
      AnError).1 sampleFailingStorage ()).1 "" (by decide) rfl,
    ((Service.store_error_wrapped sampleLib (fun _ => ⟨2, false⟩) "0-0" sampleUpdateEntity 0
      (errorfW sampleLib "query single: " ErrNotFound)).2 (Postgres.mk sampleDB) 0 1 1).2.2.1
      User.zero (by decide) rfl rfl⟩

/-- C9: the code where it parts from the claim. Over a Postgres store that cannot begin a
transaction, `Service.Update` of a valid entity returns the begin error as it is: the
error returned is the driver error itself, its text does not carry `update user` and the
quoted identifier, and it does not wrap the store error with that context. The same holds
when the commit fails after the store's `Update` succeeded. `Service.Create` over the same
stores wraps the error of `WithTx` with `persist user`. -/
theorem Service.Update_transaction_error_unwrapped :
    Service.validate sampleLib sampleUpdateEntity updateProperties = none ∧
    (NewService (some ((Postgres.mk sampleDownDB).storage sampleLib))).Update sampleLib
        (fun _ => ⟨7, false⟩) "1-2-3-4" sampleUpdateEntity 0
      = .returned (some sampleBadConn, 0) ∧
    (NewService (some ((Postgres.mk sampleCommitFailDB).storage sampleLib))).Update sampleLib
        (fun _ => ⟨7, false⟩) "1-2-3-4" sampleUpdateEntity 0
      = .returned (some sampleBadConn, 1) ∧
    sampleBadConn.Error sampleLib = "driver: bad connection" ∧
    ¬ Wraps sampleLib ("update user " ++ sampleLib.Quote "1-2-3-4") sampleBadConn
      sampleBadConn ∧
    (NewService (some ((Postgres.mk sampleDownDB).storage sampleLib))).Create sampleLib
        (fun _ => ⟨7, false⟩) sampleEntity 0
      = .returned (("", some (errorfW sampleLib "persist user: " sampleBadConn)), 0) ∧
    (NewService (some ((Postgres.mk sampleCommitFailDB).storage sampleLib))).Create sampleLib
        (fun _ => ⟨7, false⟩) sampleEntity 0
      = .returned (("", some (errorfW sampleLib "persist user: " sampleBadConn)), 1) ∧
    (errorfW sampleLib "persist user: " sampleBadConn).Error sampleLib
      = "persist user: driver: bad connection" := by
  refine ⟨by decide, rfl, rfl, rfl, ?_, rfl, rfl, rfl⟩
  intro h
  exact absurd h.2.2 (by decide)

/-! ## Theorems: the transaction -/

/-- C10: `Postgres.WithTx` over a database and a callback that log what is done. When
`BeginTx` fails, the begin error is returned and the callback is not run. When it
succeeds, the callback runs once on the runner of the transaction; if it returns an error
the transaction is rolled back, not committed, and that error is returned; if it returns
none the transaction is committed, not rolled back, and the result of `Commit` is
returned. -/
theorem Postgres.WithTx_protocol {W L : Type} (db : DB W) (action : Callback W L) (w : W)
    (l : L) :
    (∀ e w1, db.BeginTx w = (.error e, w1) →
      (Postgres.mk db.logged).WithTx action.logged ((w, []), l)
        = (some e, ((w1, [.begin]), l))) ∧
    (∀ tx w1 e w2 l2, db.BeginTx w = (.ok tx, w1) →
      action (.txRunner tx) (w1, l) = (some e, (w2, l2)) →
      (Postgres.mk db.logged).WithTx action.logged ((w, []), l)
        = (some e, (((db.Rollback tx w2).2,
            [.begin, .callback (.txRunner tx), .rollback tx]), l2))) ∧
    (∀ tx w1 w2 l2, db.BeginTx w = (.ok tx, w1) →
      action (.txRunner tx) (w1, l) = (none, (w2, l2)) →
      (Postgres.mk db.logged).WithTx action.logged ((w, []), l)
        = ((db.Commit tx w2).1, (((db.Commit tx w2).2,
            [.begin, .callback (.txRunner tx), .commit tx]), l2))) := by
  refine ⟨?_, ?_, ?_⟩
  · intro e w1 hbegin
    simp [Postgres.WithTx, DB.logged, hbegin]
  · intro tx w1 e w2 l2 hbegin hact
    simp [Postgres.WithTx, DB.logged, Callback.logged, hbegin, hact]
  · intro tx w1 w2 l2 hbegin hact
    simp [Postgres.WithTx, DB.logged, Callback.logged, hbegin, hact]

theorem Postgres.WithTx_protocol_witness :
    (Postgres.mk sampleDownDB.logged).WithTx (sampleCallback true).logged ((0, []), 0)
        = (some (.leaf "driver.ErrBadConn" "driver: bad connection"), ((0, [.begin]), 0)) ∧
    (Postgres.mk sampleDB.logged).WithTx (sampleCallback true).logged ((0, []), 0)
        = (some AnError, (((sampleDB.Rollback 0 1).2,
            [.begin, .callback (.txRunner 0), .rollback 0]), 1)) ∧
    (Postgres.mk sampleDB.logged).WithTx (sampleCallback false).logged ((0, []), 0)
        = ((sampleDB.Commit 0 1).1, (((sampleDB.Commit 0 1).2,
            [.begin, .callback (.txRunner 0), .commit 0]), 1)) :=
  ⟨(Postgres.WithTx_protocol sampleDownDB (sampleCallback true) 0 0).1 _ 0 rfl,
    (Postgres.WithTx_protocol sampleDB (sampleCallback true) 0 0).2.1 0 1 AnError 1 1 rfl rfl,
    (Postgres.WithTx_protocol sampleDB (sampleCallback false) 0 0).2.2 0 1 1 1 rfl rfl⟩

/-! ## Theorems: the checks of each operation -/

theorem validateBlankOrEmptyWithMaxLen_eq_none_iff (value field : String) (maxlength : Int) :
    validateBlankOrEmptyWithMaxLen value field maxlength () = none ↔
      TrimSpace value ≠ "" ∧ (value.length : Int) ≤ maxlength := by
  simp only [validateBlankOrEmptyWithMaxLen, RuneCountInString]
  by_cases hb : TrimSpace value = ""
  · simp [hb]
  · by_cases hl : (value.length : Int) > maxlength
    · simp [hb, hl]
    · have hle : (value.length : Int) ≤ maxlength := not_lt.mp hl
      simp [hb, hl, hle]

theorem Service.validate_create_eq (lib : Lib) (user : Entity) :
    Service.validate lib user createProperties =
      Service.runValidations
        [validateBlankOrEmptyWithMaxLen user.FirstName "FirstName" 50,
          validateBlankOrEmptyWithMaxLen user.LastName "LastName" 50,
          validateBlankOrEmptyWithMaxLen user.Nickname "Nickname" 30,
          validateEmailFormat lib user.Email "Email",
          validateBlankOrEmptyWithMaxLen user.Country "Country" 2,
          validateBlankOrEmptyWithMaxLen user.Password "Password" 20] := by
  simp [Service.validate, createProperties, Service.validation, propertyFirstName,
    propertyLastName, propertyNickname, propertyEmail, propertyCountry, propertyPassword,
    validationProperty.String]

theorem Service.validate_update_eq (lib : Lib) (user : Entity) :
    Service.validate lib user updateProperties =
      Service.runValidations
        [validateBlankOrEmptyWithMaxLen user.FirstName "FirstName" 50,
          validateBlankOrEmptyWithMaxLen user.LastName "LastName" 50,
          validateBlankOrEmptyWithMaxLen user.Nickname "Nickname" 30,
          validateEmailFormat lib user.Email "Email",
          validateBlankOrEmptyWithMaxLen user.Country "Country" 2] := by
  simp [Service.validate, updateProperties, Service.validation, propertyFirstName,
    propertyLastName, propertyNickname, propertyEmail, propertyCountry, propertyPassword,
    validationProperty.String]

theorem Service.runValidations_eq_none_iff (vs : List (Unit → Option GoError)) :
    Service.runValidations vs = none ↔ ∀ v ∈ vs, v () = none := by
  induction vs with
  | nil => simp [Service.runValidations]
  | cons v rest ih =>
    cases hv : v () with
    | none => simp [Service.runValidations, hv, ih]
    | some e => simp [Service.runValidations, hv]

theorem validateEmailFormat_eq_none_iff (lib : Lib) (value filed : String) :
    validateEmailFormat lib value filed () = none ↔ lib.ValidateFast value = none := by
  unfold validateEmailFormat
  cases lib.ValidateFast value <;> simp

/-- C13: the validation of `Create` passes exactly when FirstName and LastName are not
blank and have at most 50 characters, Nickname is not blank and has at most 30, Email is
accepted by `emailx.ValidateFast`, Country is not blank and has at most 2, Password is not
blank and has at most 20. The entity of the test with a nickname of 31 characters is
rejected with `exceeds max length: 30`, and the entity f, l, n, e@mail.com, password, X1
passes when the email check accepts e@mail.com. -/
theorem Service.validate_create_iff (lib : Lib) (user : Entity) :
    (Service.validate lib user createProperties = none ↔
      (TrimSpace user.FirstName ≠ "" ∧ (user.FirstName.length : Int) ≤ 50) ∧
      (TrimSpace user.LastName ≠ "" ∧ (user.LastName.length : Int) ≤ 50) ∧
      (TrimSpace user.Nickname ≠ "" ∧ (user.Nickname.length : Int) ≤ 30) ∧
      lib.ValidateFast user.Email = none ∧
      (TrimSpace user.Country ≠ "" ∧ (user.Country.length : Int) ≤ 2) ∧
      (TrimSpace user.Password ≠ "" ∧ (user.Password.length : Int) ≤ 20)) ∧
    Service.validate lib { sampleEntity with Nickname := "012345678901234567890123456789X" }
        createProperties
      = some (.validation ErrBadInput [("Nickname", "exceeds max length: 30")]) ∧
    (lib.ValidateFast "e@mail.com" = none →
      Service.validate lib sampleCreateEntity createProperties = none) := by
  have hiff : Service.validate lib user createProperties = none ↔
      (TrimSpace user.FirstName ≠ "" ∧ (user.FirstName.length : Int) ≤ 50) ∧
      (TrimSpace user.LastName ≠ "" ∧ (user.LastName.length : Int) ≤ 50) ∧
      (TrimSpace user.Nickname ≠ "" ∧ (user.Nickname.length : Int) ≤ 30) ∧
      lib.ValidateFast user.Email = none ∧
      (TrimSpace user.Country ≠ "" ∧ (user.Country.length : Int) ≤ 2) ∧
      (TrimSpace user.Password ≠ "" ∧ (user.Password.length : Int) ≤ 20) := by
    rw [Service.validate_create_eq, Service.runValidations_eq_none_iff]
    simp only [List.mem_cons, List.mem_singleton, forall_eq_or_imp, forall_eq,
      validateBlankOrEmptyWithMaxLen_eq_none_iff, validateEmailFormat_eq_none_iff,
      List.not_mem_nil, false_implies, implies_true, and_true]
  refine ⟨hiff, ?_, ?_⟩
  · rw [Service.validate_create_eq]
    have h1 : validateBlankOrEmptyWithMaxLen "John" "FirstName" 50 () = none := by decide
    have h2 : validateBlankOrEmptyWithMaxLen "Doe" "LastName" 50 () = none := by decide
    have h3 : validateBlankOrEmptyWithMaxLen "012345678901234567890123456789X" "Nickname" 30 ()
        = some (.validation ErrBadInput [("Nickname", "exceeds max length: 30")]) := by decide
    simp [Service.runValidations, sampleEntity, h1, h2, h3]
  · intro hmail
    rw [Service.validate_create_eq, Service.runValidations_eq_none_iff]
    intro v hv
    simp only [List.mem_cons, List.mem_singleton, List.not_mem_nil, or_false] at hv
    rcases hv with rfl | rfl | rfl | rfl | rfl | rfl
    · decide
    · decide
    · decide
    · exact (validateEmailFormat_eq_none_iff lib _ _).mpr hmail
    · decide
    · decide

theorem Service.validate_create_iff_witness :
    Service.validate sampleLib { sampleEntity with Nickname := "012345678901234567890123456789X" }
        createProperties
      = some (.validation ErrBadInput [("Nickname", "exceeds max length: 30")]) ∧
    Service.validate sampleLib sampleCreateEntity createProperties = none :=
  ⟨(Service.validate_create_iff sampleLib sampleCreateEntity).2.1,
    (Service.validate_create_iff sampleLib sampleCreateEntity).2.2 (by decide)⟩

/-- C17: in `validateBlankOrEmptyWithMaxLen` a value of white space only, of any length,
gets the error `blank or empty`, never the one for length; a value that is not blank, whose
trimmed length is within the maximum and whose whole length is above it, gets the error
`exceeds max length`. So the check of `Service.validate` for Country rejects the value
of a blank, a and b, three characters of which two remain after trimming. -/
theorem validateBlankOrEmptyWithMaxLen_trims_for_emptiness_only (lib : Lib) (user : Entity)
    (value field : String) (maxlength : Int) :
    ((∀ c ∈ value.data, isSpace c = true) →
      validateBlankOrEmptyWithMaxLen value field maxlength ()
        = some (.validation ErrBadInput [(field, "blank or empty")])) ∧
    (TrimSpace value ≠ "" → ((TrimSpace value).length : Int) ≤ maxlength →
      (value.length : Int) > maxlength →
      validateBlankOrEmptyWithMaxLen value field maxlength ()
        = some (.validation ErrBadInput
            [(field, "exceeds max length: " ++ toString maxlength)])) ∧
    (TrimSpace " ab" = "ab" ∧
      Service.validate lib { user with Country := " ab" } [propertyCountry]
        = some (.validation ErrBadInput [("Country", "exceeds max length: 2")])) := by
  refine ⟨?_, ?_, ?_, ?_⟩
  · intro hblank
    have hb : TrimSpace value = "" := (TrimSpace_eq_empty_iff value).mpr hblank
    simp [validateBlankOrEmptyWithMaxLen, hb]
  · intro hb _ hl
    simp [validateBlankOrEmptyWithMaxLen, RuneCountInString, hb, hl]
  · decide
  · have h : validateBlankOrEmptyWithMaxLen " ab" "Country" 2 ()
        = some (.validation ErrBadInput [("Country", "exceeds max length: 2")]) := by decide
    simp [Service.validate, Service.validation, propertyFirstName, propertyLastName,
      propertyNickname, propertyEmail, propertyCountry, propertyPassword,
      validationProperty.String, Service.runValidations, h]

theorem validateBlankOrEmptyWithMaxLen_trims_for_emptiness_only_witness :
    validateBlankOrEmptyWithMaxLen "   " "Country" 2 ()
        = some (.validation ErrBadInput [("Country", "blank or empty")]) ∧
      validateBlankOrEmptyWithMaxLen " ab" "Country" 2 ()
        = some (.validation ErrBadInput [("Country", "exceeds max length: 2")]) :=
  ⟨(validateBlankOrEmptyWithMaxLen_trims_for_emptiness_only sampleLib sampleEntity
      "   " "Country" 2).1 (by decide),
    (validateBlankOrEmptyWithMaxLen_trims_for_emptiness_only sampleLib sampleEntity
      " ab" "Country" 2).2.1 (by decide) (by decide) (by decide)⟩

/-- C14: `Service.Update` does not look at the password. For every storage (the nil one
included), identifier and world, two entities that differ in Password only get the same
validation result, hand the same record, with the empty Password, to the store, run the
same callback, and so get the same outcome and leave the same world. -/
theorem Service.Update_ignores_password {W : Type} (s : Service W) (lib : Lib)
    (clock : W → Time) (id : String) (user : Entity) (password : String) (w : W) :
    Service.validate lib { user with Password := password } updateProperties
        = Service.validate lib user updateProperties ∧
    (∀ timeNow, Service.updateRecord timeNow { user with Password := password }
        = Service.updateRecord timeNow user ∧
      (Service.updateRecord timeNow user).Password = "") ∧
    (∀ st : Storage W, Service.updateAction st lib clock id { user with Password := password }
        = Service.updateAction st lib clock id user) ∧
    s.Update lib clock id { user with Password := password } w = s.Update lib clock id user w := by
  have hval : Service.validate lib { user with Password := password } updateProperties
      = Service.validate lib user updateProperties := by
    rw [Service.validate_update_eq, Service.validate_update_eq]
  have hrec : ∀ timeNow, Service.updateRecord timeNow { user with Password := password }
      = Service.updateRecord timeNow user := fun _ => rfl
  have hact : ∀ st : Storage W,
      Service.updateAction st lib clock id { user with Password := password }
        = Service.updateAction st lib clock id user := fun _ => rfl
  refine ⟨hval, fun t => ⟨hrec t, rfl⟩, hact, ?_⟩
  unfold Service.Update
  rw [hval]
  cases s.storage with
  | none => rfl
  | some st => simp only [hact st]

/-! ## Theorems: create, then get -/

theorem Postgres.Persist_of_id {W : Type} (p : Postgres W) (lib : Lib) (run : Runner)
    (user : User) (w w1 : W) (id : String)
    (hscan : p.db.ScanString run persistQuery
      [.str user.FirstName, .str user.LastName, .str user.Nickname, .str user.Email,
        .str user.Country, .str user.Password, .time user.CreatedAt, .time user.UpdatedAt] w
      = (.ok id, w1)) :
    p.Persist lib run user w = ((id, none), w1) := by
  simp [Postgres.Persist, hscan, convertError, errorsIs]

theorem Postgres.Retrieve_of_row {W : Type} (p : Postgres W) (lib : Lib) (run : Runner)
    (id : String) (forUpdate : Bool) (w w1 : W) (row : UserRow)
    (hscan : p.db.ScanUser run (retrieveQuery forUpdate) [.str id] w = (.ok row, w1)) :
    p.Retrieve lib run id forUpdate w = ((row.into { User.zero with ID := id }, none), w1) := by
  simp [Postgres.Retrieve, hscan, convertError, errorsIs]

/-- C11: for a valid entity, when the store keeps what `Persist` is given (`Persist`
succeeds with identifier `id` and `Retrieve` of `id` answers a record with the five values
persisted), `Create` returns `id` without error and `Get` of `id` returns the entity with
the same FirstName, LastName, Nickname, Email and Country and the empty Password. This
holds over the test double with any such mock storage and over the Postgres store with a
database that begins, inserts, commits and then selects the row inserted. -/
theorem Service.create_then_get {W : Type} (lib : Lib) (clock : W → Time) (user : Entity)
    (w : W) (hvalid : Service.validate lib user createProperties = none) :
    (∀ (mock : Storage W) (id : String) (w1 : W) (u : User) (w2 : W),
      mock.Persist .nil (Service.createRecord (clock w) user) w = ((id, none), w1) →
      mock.Retrieve .nil id false w1 = ((u, none), w2) →
      userEntity u = userEntity (Service.createRecord (clock w) user) →
      (NewService (some (testStorage mock))).Create lib clock user w
          = .returned ((id, none), w1) ∧
        (NewService (some (testStorage mock))).Get lib id w1
          = .returned (({ user with Password := "" }, none), w2)) ∧
    (∀ (p : Postgres W) (tx : Tx) (id : String) (w1 w2 w3 w4 : W) (row : UserRow),
      p.db.BeginTx w = (.ok tx, w1) →
      p.db.ScanString (.txRunner tx) persistQuery
        [.str user.FirstName, .str user.LastName, .str user.Nickname, .str user.Email,
          .str user.Country, .str user.Password, .time (clock w1).UTC, .time (clock w1).UTC]
        w1 = (.ok id, w2) →
      p.db.Commit tx w2 = (none, w3) →
      p.db.ScanUser .qRunner (retrieveQuery false) [.str id] w3 = (.ok row, w4) →
      row.FirstName = user.FirstName → row.LastName = user.LastName →
      row.Nickname = user.Nickname → row.Email = user.Email → row.Country = user.Country →
      (NewService (some (p.storage lib))).Create lib clock user w
          = .returned ((id, none), w3) ∧
        (NewService (some (p.storage lib))).Get lib id w3
          = .returned (({ user with Password := "" }, none), w4)) := by
  constructor
  · intro mock id w1 u w2 hpersist hretrieve hsame
    constructor
    · simp [NewService, Service.Create, hvalid, testStorage, testTransactioner.WithTx,
        Service.createAction, hpersist]
    · have hent : userEntity u = { user with Password := "" } := by
        rw [hsame]
        simp [userEntity, Service.createRecord, entityUser, Entity.zero]
      simp [NewService, Service.Get, testStorage, testTransactioner.WithoutTx,
        Service.getAction, hretrieve, hent]
  · intro p tx id w1 w2 w3 w4 row hbegin hinsert hcommit hselect h1 h2 h3 h4 h5
    have hpersist := Postgres.Persist_of_id p lib (.txRunner tx)
      (Service.createRecord (clock w1) user) w1 w2 id
      (by simpa [Service.createRecord, entityUser, Time.UTC] using hinsert)
    have hretrieve := Postgres.Retrieve_of_row p lib .qRunner id false w3 w4 row hselect
    constructor
    · simp [NewService, Service.Create, hvalid, Postgres.storage, Postgres.WithTx, hbegin,
        Service.createAction, hpersist, hcommit]
    · simp [NewService, Service.Get, Postgres.storage, Postgres.WithoutTx, Service.getAction,
        hretrieve, userEntity, UserRow.into, Entity.zero, h1, h2, h3, h4, h5]

theorem Service.create_then_get_witness :
    ((NewService (some (testStorage memoryStorage))).Create sampleLib (fun _ => ⟨7, false⟩)
          sampleEntity []
        = .returned (("0", none), [{ Service.createRecord ⟨7, false⟩ sampleEntity with ID := "0" }]) ∧
      (NewService (some (testStorage memoryStorage))).Get sampleLib "0"
          [{ Service.createRecord ⟨7, false⟩ sampleEntity with ID := "0" }]
        = .returned (({ sampleEntity with Password := "" }, none),
            [{ Service.createRecord ⟨7, false⟩ sampleEntity with ID := "0" }])) ∧
    ((NewService (some ((Postgres.mk sampleDB).storage sampleLib))).Create sampleLib
          (fun _ => ⟨7, false⟩) sampleCreateEntity 0
        = .returned (("1-2-3-4", none), 1) ∧
      (NewService (some ((Postgres.mk sampleDB).storage sampleLib))).Get sampleLib "1-2-3-4" 1
        = .returned (({ sampleCreateEntity with Password := "" }, none), 1)) :=
  ⟨(Service.create_then_get sampleLib (fun _ => ⟨7, false⟩) sampleEntity [] (by decide)).1
      memoryStorage "0" _ _ _ rfl rfl rfl,
    (Service.create_then_get sampleLib (fun _ => ⟨7, false⟩) sampleCreateEntity 0
      (by decide)).2 (Postgres.mk sampleDB) 0 "1-2-3-4" 1 1 1 1 _ rfl rfl rfl rfl
      rfl rfl rfl rfl rfl⟩

/-! ## Theorems: the change record as a map -/

/-- C15, as stated, fails: the change record of the update of the integration test is
the same value as the record built by adding the five entries in the opposite order, and
two records filled in opposite orders are equal, so nothing read from a change record can
tell the order in which its entries were added. -/
theorem Changes.insertion_order_counterexample :
    Service.changeRecord ((Postgres.mk sampleDB).storage sampleLib) sampleLib
        (fun _ => ⟨2, false⟩) "1-2-3-4" sampleUpdateEntity (.txRunner 0) 1
      = ((((Changes.empty.Add "Country" "X1" "X2").Add "Email" "e@mail.com" "e@mail2.com").Add
          "Nickname" "n" "n2").Add "LastName" "l" "l2").Add "FirstName" "f" "f2" ∧
    (Changes.empty.Add "FirstName" "f" "f2").Add "LastName" "l" "l2"
      = (Changes.empty.Add "LastName" "l" "l2").Add "FirstName" "f" "f2" ∧
    ¬ ∃ readBack : Changes → List String,
      readBack ((Changes.empty.Add "FirstName" "f" "f2").Add "LastName" "l" "l2")
          = ["FirstName", "LastName"] ∧
        readBack ((Changes.empty.Add "LastName" "l" "l2").Add "FirstName" "f" "f2")
          = ["LastName", "FirstName"] := by
  have hcomm : (Changes.empty.Add "FirstName" "f" "f2").Add "LastName" "l" "l2"
      = (Changes.empty.Add "LastName" "l" "l2").Add "FirstName" "f" "f2" := by
    funext k
    simp only [Changes.Add]
    by_cases h1 : k = "LastName" <;> by_cases h2 : k = "FirstName" <;> simp_all
  refine ⟨?_, hcomm, ?_⟩
  · funext k
    rw [Service.changeRecord_apply ((Postgres.mk sampleDB).storage sampleLib) sampleLib
      (fun _ => ⟨2, false⟩) "1-2-3-4" sampleUpdateEntity (.txRunner 0) 1
      (UserRow.into ⟨"f", "l", "n", "e@mail.com", "X1", ⟨1, true⟩, ⟨1, true⟩⟩
        { User.zero with ID := "1-2-3-4" }) 1 rfl k]
    simp only [Changes.Add, Changes.empty, UserRow.into, sampleUpdateEntity]
    by_cases h1 : k = "Country" <;> by_cases h2 : k = "Email" <;>
      by_cases h3 : k = "Nickname" <;> by_cases h4 : k = "LastName" <;>
      by_cases h5 : k = "FirstName" <;> simp_all
  · rintro ⟨readBack, h1, h2⟩
    rw [hcomm, h2] at h1
    exact absurd h1 (by decide)

/-- C15, amended: the change record is a map read by key, without an order of its
entries. Adding under a name makes the lookup of that name answer the pair added and
leaves the lookups of the other names as they were; adding under two different names gives
the same record in either order. -/
theorem Changes.Add_lookup_and_order (cs : Changes) (k1 k2 : String) (o1 n1 o2 n2 : String)
    (h : k1 ≠ k2) :
    (cs.Add k1 o1 n1) k1 = some ⟨o1, n1⟩ ∧
    (cs.Add k1 o1 n1) k2 = cs k2 ∧
    (cs.Add k1 o1 n1).Add k2 o2 n2 = (cs.Add k2 o2 n2).Add k1 o1 n1 := by
  refine ⟨by simp [Changes.Add], by simp [Changes.Add, Ne.symm h], ?_⟩
  funext k
  simp only [Changes.Add]
  by_cases ha : k = k2 <;> by_cases hb : k = k1 <;> simp_all

theorem Changes.Add_lookup_and_order_witness :
    (Changes.empty.Add "FirstName" "f" "f2") "FirstName" = some ⟨"f", "f2"⟩ ∧
    (Changes.empty.Add "FirstName" "f" "f2") "Country" = Changes.empty "Country" ∧
    (Changes.empty.Add "FirstName" "f" "f2").Add "Country" "X1" "X2"
      = (Changes.empty.Add "Country" "X1" "X2").Add "FirstName" "f" "f2" :=
  Changes.Add_lookup_and_order Changes.empty "FirstName" "Country" "f" "f2" "X1" "X2"
    (by decide)

/-! ## Theorems: which methods of the storage are called -/

theorem Service.Create_logged_test {W : Type} (lib : Lib) (clock : W → Time) (user : Entity)
    (w : W) (log : List Call) (mock : Storage W) (id : String) (err : Option GoError) (w1 : W)
    (hvalid : Service.validate lib user createProperties = none) :
    mock.Persist .nil (Service.createRecord (clock w) user) w = ((id, err), w1) →
    (NewService (some (testStorage mock).logged)).Create lib (fun s => clock s.1) user (w, log)
      = .returned
        ((match err with
          | none => (id, none)
          | some e => ("", some (errorfW lib "persist user: " e))),
          (w1, log ++ [.WithTx, .Persist .nil (Service.createRecord (clock w) user)])) := by
  intro hop
  cases err <;>
    simp [NewService, Service.Create, hvalid, Storage.logged, Callback.captureLog, testStorage,
      testTransactioner.WithTx, Service.createAction, hop]

theorem Service.Create_logged_postgres {W : Type} (lib : Lib) (clock : W → Time)
    (user : Entity) (w : W) (log : List Call) (p : Postgres W) (tx : Tx) (w1 : W) (id : String)
    (err : Option GoError) (w2 : W)
    (hvalid : Service.validate lib user createProperties = none)
    (hbegin : p.db.BeginTx w = (.ok tx, w1)) :
    p.Persist lib (.txRunner tx) (Service.createRecord (clock w1) user) w1
      = ((id, err), w2) →
    (NewService (some (p.storage lib).logged)).Create lib (fun s => clock s.1) user (w, log)
      = .returned
        (match err with
          | some e =>
            (("", some (errorfW lib "persist user: " e)),
              ((p.db.Rollback tx w2).2,
                log ++ [.WithTx, .Persist (.txRunner tx) (Service.createRecord (clock w1) user)]))
          | none =>
            ((match (p.db.Commit tx w2).1 with
              | none => (id, none)
              | some ce => ("", some (errorfW lib "persist user: " ce))),
              ((p.db.Commit tx w2).2,
                log ++ [.WithTx, .Persist (.txRunner tx) (Service.createRecord (clock w1) user)])))
    := by
  intro hop
  cases err with
  | some e =>
    simp [NewService, Service.Create, hvalid, Storage.logged, Callback.captureLog,
      Postgres.storage, Postgres.WithTx, hbegin, Service.createAction, hop]
  | none =>
    cases hc : (p.db.Commit tx w2).1 <;>
      simp [NewService, Service.Create, hvalid, Storage.logged, Callback.captureLog,
        Postgres.storage, Postgres.WithTx, hbegin, Service.createAction, hop, hc]

theorem Service.Create_logged_postgres_down {W : Type} (lib : Lib) (clock : W → Time)
    (user : Entity) (w : W) (log : List Call) (p : Postgres W) (e : GoError) (w1 : W)
    (hvalid : Service.validate lib user createProperties = none)
    (hbegin : p.db.BeginTx w = (.error e, w1)) :
    (NewService (some (p.storage lib).logged)).Create lib (fun s => clock s.1) user (w, log)
      = .returned (("", some (errorfW lib "persist user: " e)), (w1, log ++ [.WithTx])) := by
  simp [NewService, Service.Create, hvalid, Storage.logged, Callback.captureLog,
    Postgres.storage, Postgres.WithTx, hbegin]

theorem Service.Update_logged_test {W : Type} (lib : Lib) (clock : W → Time) (id : String)
    (user : Entity) (w : W) (log : List Call) (mock : Storage W) (o : User)
    (err : Option GoError) (w1 : W)
    (hvalid : Service.validate lib user updateProperties = none) :
    mock.Update .nil id (Service.updateRecord (clock w) user) w = ((o, err), w1) →
    (NewService (some (testStorage mock).logged)).Update lib (fun s => clock s.1) id user
        (w, log)
      = .returned
        ((match err with
          | none => none
          | some e => some (errorfW lib ("update user " ++ lib.Quote id ++ ": ") e)),
          (w1, log ++ [.WithTx, .Update .nil id (Service.updateRecord (clock w) user)])) := by
  intro hop
  cases err <;>
    simp [NewService, Service.Update, hvalid, Storage.logged, Callback.captureLog, testStorage,
      testTransactioner.WithTx, Service.updateAction, hop]

theorem Service.Update_logged_postgres {W : Type} (lib : Lib) (clock : W → Time) (id : String)
    (user : Entity) (w : W) (log : List Call) (p : Postgres W) (tx : Tx) (w1 : W) (o : User)
    (err : Option GoError) (w2 : W)
    (hvalid : Service.validate lib user updateProperties = none)
    (hbegin : p.db.BeginTx w = (.ok tx, w1)) :
    p.Update lib (.txRunner tx) id (Service.updateRecord (clock w1) user) w1
      = ((o, err), w2) →
    (NewService (some (p.storage lib).logged)).Update lib (fun s => clock s.1) id user (w, log)
      = .returned
        (match err with
          | some e =>
            (some (errorfW lib ("update user " ++ lib.Quote id ++ ": ") e),
              ((p.db.Rollback tx w2).2,
                log ++ [.WithTx,
                  .Update (.txRunner tx) id (Service.updateRecord (clock w1) user)]))
          | none =>
            ((p.db.Commit tx w2).1,
              ((p.db.Commit tx w2).2,
                log ++ [.WithTx,
                  .Update (.txRunner tx) id (Service.updateRecord (clock w1) user)]))) := by
  intro hop
  cases err <;>
    simp [NewService, Service.Update, hvalid, Storage.logged, Callback.captureLog,
      Postgres.storage, Postgres.WithTx, hbegin, Service.updateAction, hop]

theorem Service.Update_logged_postgres_down {W : Type} (lib : Lib) (clock : W → Time)
    (id : String) (user : Entity) (w : W) (log : List Call) (p : Postgres W) (e : GoError)
    (w1 : W) (hvalid : Service.validate lib user updateProperties = none)
    (hbegin : p.db.BeginTx w = (.error e, w1)) :
    (NewService (some (p.storage lib).logged)).Update lib (fun s => clock s.1) id user (w, log)
      = .returned (some e, (w1, log ++ [.WithTx])) := by
  simp [NewService, Service.Update, hvalid, Storage.logged, Callback.captureLog,
    Postgres.storage, Postgres.WithTx, hbegin]

theorem Service.Get_logged {W : Type} (lib : Lib) (id : String) (w : W) (log : List Call)
    (st : Storage W) (runner : Runner) (u : User) (err : Option GoError) (w1 : W)
    (hwithout : ∀ (L : Type) (action : Callback W L) (s : W × L),
      st.WithoutTx action s = action runner s) :
    st.Retrieve runner id false w = ((u, err), w1) →
    (NewService (some st.logged)).Get lib id (w, log)
      = .returned
        ((match err with
          | none => (userEntity u, none)
          | some e =>
            (Entity.zero, some (errorfW lib ("retrieve user " ++ lib.Quote id ++ ": ") e))),
          (w1, log ++ [.WithoutTx, .Retrieve runner id false])) := by
  intro hop
  cases err <;>
    simp [NewService, Service.Get, Storage.logged, Callback.captureLog, hwithout,
      Service.getAction, hop]

theorem Service.Delete_logged {W : Type} (lib : Lib) (id : String) (w : W) (log : List Call)
    (st : Storage W) (runner : Runner) (err : Option GoError) (w1 : W)
    (hwithout : ∀ (L : Type) (action : Callback W L) (s : W × L),
      st.WithoutTx action s = action runner s) :
    st.Delete runner id w = (err, w1) →
    (NewService (some st.logged)).Delete lib id (w, log)
      = .returned
        ((match err with
          | none => none
          | some e => some (errorfW lib ("delete user " ++ lib.Quote id ++ ": ") e)),
          (w1, log ++ [.WithoutTx, .Delete runner id])) := by
  intro hop
  cases err <;>
    simp [NewService, Service.Delete, Storage.logged, Callback.captureLog, hwithout,
      Service.deleteAction, hop]

theorem Service.Get_begins_nothing {W : Type} (lib : Lib) (id : String) (w : W)
    (txlog : List TxEvent) (db : DB W) :
    ∃ res wf, (NewService (some ((Postgres.mk db.logged).storage lib))).Get lib id (w, txlog)
      = .returned (res, (wf, txlog)) := by
  rcases hscan : db.ScanUser .qRunner (retrieveQuery false) [.str id] w with ⟨res, w1⟩
  cases res with
  | error e =>
    cases hconv : convertError lib (some e) <;>
      simp [NewService, Service.Get, Postgres.storage, Postgres.WithoutTx, Service.getAction,
        Postgres.Retrieve, DB.logged, hscan, hconv]
  | ok row =>
    have hconv : convertError lib none = none := by simp [convertError, errorsIs]
    simp [NewService, Service.Get, Postgres.storage, Postgres.WithoutTx, Service.getAction,
      Postgres.Retrieve, DB.logged, hscan, hconv]

theorem Service.Delete_begins_nothing {W : Type} (lib : Lib) (id : String) (w : W)
    (txlog : List TxEvent) (db : DB W) :
    ∃ res wf, (NewService (some ((Postgres.mk db.logged).storage lib))).Delete lib id (w, txlog)
      = .returned (res, (wf, txlog)) := by
  rcases hscan : db.ScanNullBool .qRunner deleteQuery [.str id] w with ⟨res, w1⟩
  cases res with
  | error e =>
    cases hconv : convertError lib (some e) <;>
      simp [NewService, Service.Delete, Postgres.storage, Postgres.WithoutTx,
        Service.deleteAction, Postgres.Delete, DB.logged, hscan, hconv]
  | ok b =>
    simp [NewService, Service.Delete, Postgres.storage, Postgres.WithoutTx,
      Service.deleteAction, Postgres.Delete, DB.logged, hscan]

/-- C12, as stated, fails over the Postgres store. On a database whose commit fails, for
the valid entity of the test, `Persist` is called once and returns the identifier 1-2-3-4
without error, yet `Create` returns the empty identifier and the commit error. On a
database that cannot begin a transaction `Persist` is not called at all. -/
theorem Service.Create_persists_once_counterexample :
    Service.validate sampleLib sampleEntity createProperties = none ∧
    (Postgres.mk sampleCommitFailDB).Persist sampleLib (.txRunner 0)
        (Service.createRecord ⟨7, false⟩ sampleEntity) 1
      = (("1-2-3-4", none), 1) ∧
    (NewService (some ((Postgres.mk sampleCommitFailDB).storage sampleLib).logged)).Create
        sampleLib (fun _ => ⟨7, false⟩) sampleEntity (0, [])
      = .returned (("", some (errorfW sampleLib "persist user: " sampleBadConn)),
          (1, [.WithTx, .Persist (.txRunner 0) (Service.createRecord ⟨7, false⟩ sampleEntity)])) ∧
    (NewService (some ((Postgres.mk sampleDownDB).storage sampleLib).logged)).Create
        sampleLib (fun _ => ⟨7, false⟩) sampleEntity (0, [])
      = .returned (("", some (errorfW sampleLib "persist user: " sampleBadConn)),
          (0, [.WithTx])) :=
  ⟨by decide, rfl, rfl, rfl⟩

/-- C12, amended: for a valid entity the record `Create` builds has the six values of the
entity, the empty ID and the same time as CreatedAt and UpdatedAt. Over the test double,
and over the Postgres store once the transaction is begun, `Create` calls `WithTx` and then
`Persist` once, with that record; it returns the identifier of `Persist` without error
when `Persist` returns no error and, over Postgres, the commit succeeds; an error of
`Persist` or of the commit comes back wrapped, with the empty identifier. When Postgres
cannot begin the transaction `Persist` is not called. -/
theorem Service.Create_persists_once {W : Type} (lib : Lib) (clock : W → Time) (user : Entity)
    (w : W) (log : List Call)
    (hvalid : Service.validate lib user createProperties = none) :
    (∀ timeNow,
      (Service.createRecord timeNow user).FirstName = user.FirstName ∧
      (Service.createRecord timeNow user).LastName = user.LastName ∧
      (Service.createRecord timeNow user).Nickname = user.Nickname ∧
      (Service.createRecord timeNow user).Email = user.Email ∧
      (Service.createRecord timeNow user).Country = user.Country ∧
      (Service.createRecord timeNow user).Password = user.Password ∧
      (Service.createRecord timeNow user).ID = "" ∧
      (Service.createRecord timeNow user).CreatedAt
        = (Service.createRecord timeNow user).UpdatedAt) ∧
    (∀ (mock : Storage W) (id : String) (err : Option GoError) (w1 : W),
      mock.Persist .nil (Service.createRecord (clock w) user) w = ((id, err), w1) →
      (NewService (some (testStorage mock).logged)).Create lib (fun s => clock s.1) user (w, log)
        = .returned
          ((match err with
            | none => (id, none)
            | some e => ("", some (errorfW lib "persist user: " e))),
            (w1, log ++ [.WithTx, .Persist .nil (Service.createRecord (clock w) user)]))) ∧
    (∀ (p : Postgres W) (tx : Tx) (w1 : W) (id : String) (err : Option GoError) (w2 : W),
      p.db.BeginTx w = (.ok tx, w1) →
      p.Persist lib (.txRunner tx) (Service.createRecord (clock w1) user) w1
        = ((id, err), w2) →
      (NewService (some (p.storage lib).logged)).Create lib (fun s => clock s.1) user (w, log)
        = .returned
          (match err with
            | some e =>
              (("", some (errorfW lib "persist user: " e)),
                ((p.db.Rollback tx w2).2,
                  log ++ [.WithTx,
                    .Persist (.txRunner tx) (Service.createRecord (clock w1) user)]))
            | none =>
              ((match (p.db.Commit tx w2).1 with
                | none => (id, none)
                | some ce => ("", some (errorfW lib "persist user: " ce))),
                ((p.db.Commit tx w2).2,
                  log ++ [.WithTx,
                    .Persist (.txRunner tx) (Service.createRecord (clock w1) user)])))) ∧
    (∀ (p : Postgres W) (e : GoError) (w1 : W), p.db.BeginTx w = (.error e, w1) →
      (NewService (some (p.storage lib).logged)).Create lib (fun s => clock s.1) user (w, log)
        = .returned (("", some (errorfW lib "persist user: " e)), (w1, log ++ [.WithTx]))) := by
  refine ⟨?_, ?_, ?_, ?_⟩
  · intro timeNow
    simp [Service.createRecord, entityUser, User.zero]
  · intro mock id err w1 hop
    exact Service.Create_logged_test lib clock user w log mock id err w1 hvalid hop
  · intro p tx w1 id err w2 hbegin hop
    exact Service.Create_logged_postgres lib clock user w log p tx w1 id err w2 hvalid hbegin hop
  · intro p e w1 hbegin
    exact Service.Create_logged_postgres_down lib clock user w log p e w1 hvalid hbegin

theorem Service.Create_persists_once_witness :
    (NewService (some (testStorage sampleStorage).logged)).Create sampleLib
        (fun _ => ⟨7, false⟩) sampleEntity ((), [])
      = .returned (("1-2-3-4", none),
          ((), [.WithTx, .Persist .nil (Service.createRecord ⟨7, false⟩ sampleEntity)])) ∧
    (NewService (some ((Postgres.mk sampleDB).storage sampleLib).logged)).Create sampleLib
        (fun _ => ⟨7, false⟩) sampleEntity (0, [])
      = .returned (("1-2-3-4", none),
          (1, [.WithTx, .Persist (.txRunner 0) (Service.createRecord ⟨7, false⟩ sampleEntity)])) :=
  ⟨(Service.Create_persists_once sampleLib (fun _ => ⟨7, false⟩) sampleEntity () []
      (by decide)).2.1 sampleStorage "1-2-3-4" none () rfl,
    (Service.Create_persists_once sampleLib (fun _ => ⟨7, false⟩) sampleEntity 0 []
      (by decide)).2.2.1 (Postgres.mk sampleDB) 0 1 "1-2-3-4" none 1 rfl rfl⟩

/-- C16, as stated, fails over the Postgres store: on a database that cannot begin a
transaction, `Update` of a valid entity calls `WithTx` and returns the begin error, and
the method `Update` of the store is not called. -/
theorem Service.transaction_scope_counterexample :
    Service.validate sampleLib sampleUpdateEntity updateProperties = none ∧
    (NewService (some ((Postgres.mk sampleDownDB).storage sampleLib).logged)).Update sampleLib
        (fun _ => ⟨7, false⟩) "1-2-3-4" sampleUpdateEntity (0, [])
      = .returned (some sampleBadConn, (0, [.WithTx])) :=
  ⟨by decide, rfl⟩

/-- C16, amended: over the test double and over the Postgres store, with a log of the
calls of the storage. `Get` and `Delete` call `WithoutTx` and, once, on its runner,
`Retrieve` with forUpdate false respectively `Delete`, and nothing else; over Postgres no
transaction is begun, committed or rolled back. `Create` and `Update`, validation passed,
call `WithTx` and, when its callback runs (the test double; Postgres once the transaction
is begun), call `Persist` respectively `Update` once, on the runner of `WithTx`; when
Postgres cannot begin the transaction they are not called. -/
theorem Service.transaction_scope {W : Type} (lib : Lib) (clock : W → Time) (id : String)
    (user : Entity) (w : W) (log : List Call) :
    ((∀ mock : Storage W, ∃ res wf,
        (NewService (some (testStorage mock).logged)).Get lib id (w, log)
          = .returned (res, (wf, log ++ [.WithoutTx, .Retrieve .nil id false]))) ∧
      (∀ p : Postgres W, ∃ res wf,
        (NewService (some (p.storage lib).logged)).Get lib id (w, log)
          = .returned (res, (wf, log ++ [.WithoutTx, .Retrieve .qRunner id false]))) ∧
      (∀ (db : DB W) (txlog : List TxEvent), ∃ res wf,
        (NewService (some ((Postgres.mk db.logged).storage lib))).Get lib id (w, txlog)
          = .returned (res, (wf, txlog)))) ∧
    ((∀ mock : Storage W, ∃ res wf,
        (NewService (some (testStorage mock).logged)).Delete lib id (w, log)
          = .returned (res, (wf, log ++ [.WithoutTx, .Delete .nil id]))) ∧
      (∀ p : Postgres W, ∃ res wf,
        (NewService (some (p.storage lib).logged)).Delete lib id (w, log)
          = .returned (res, (wf, log ++ [.WithoutTx, .Delete .qRunner id]))) ∧
      (∀ (db : DB W) (txlog : List TxEvent), ∃ res wf,
        (NewService (some ((Postgres.mk db.logged).storage lib))).Delete lib id (w, txlog)
          = .returned (res, (wf, txlog)))) ∧
    (Service.validate lib user createProperties = none →
      (∀ mock : Storage W, ∃ res wf,
        (NewService (some (testStorage mock).logged)).Create lib (fun s => clock s.1) user
            (w, log)
          = .returned (res,
              (wf, log ++ [.WithTx, .Persist .nil (Service.createRecord (clock w) user)]))) ∧
      (∀ (p : Postgres W) (tx : Tx) (w1 : W), p.db.BeginTx w = (.ok tx, w1) → ∃ res wf,
        (NewService (some (p.storage lib).logged)).Create lib (fun s => clock s.1) user
            (w, log)
          = .returned (res,
              (wf, log ++ [.WithTx,
                .Persist (.txRunner tx) (Service.createRecord (clock w1) user)]))) ∧
      (∀ (p : Postgres W) (e : GoError) (w1 : W), p.db.BeginTx w = (.error e, w1) → ∃ res,
        (NewService (some (p.storage lib).logged)).Create lib (fun s => clock s.1) user
            (w, log)
          = .returned (res, (w1, log ++ [.WithTx])))) ∧
    (Service.validate lib user updateProperties = none →
      (∀ mock : Storage W, ∃ res wf,
        (NewService (some (testStorage mock).logged)).Update lib (fun s => clock s.1) id user
            (w, log)
          = .returned (res,
              (wf, log ++ [.WithTx, .Update .nil id (Service.updateRecord (clock w) user)]))) ∧
      (∀ (p : Postgres W) (tx : Tx) (w1 : W), p.db.BeginTx w = (.ok tx, w1) → ∃ res wf,
        (NewService (some (p.storage lib).logged)).Update lib (fun s => clock s.1) id user
            (w, log)
          = .returned (res,
              (wf, log ++ [.WithTx,
                .Update (.txRunner tx) id (Service.updateRecord (clock w1) user)]))) ∧
      (∀ (p : Postgres W) (e : GoError) (w1 : W), p.db.BeginTx w = (.error e, w1) → ∃ res,
        (NewService (some (p.storage lib).logged)).Update lib (fun s => clock s.1) id user
            (w, log)
          = .returned (res, (w1, log ++ [.WithTx])))) := by
  refine ⟨⟨?_, ?_, ?_⟩, ⟨?_, ?_, ?_⟩, ?_, ?_⟩
  · intro mock
    rcases hop : mock.Retrieve .nil id false w with ⟨⟨u, err⟩, w1⟩
    exact ⟨_, _, Service.Get_logged lib id w log (testStorage mock) .nil u err w1
      (fun _ _ _ => rfl) hop⟩
  · intro p
    rcases hop : p.Retrieve lib .qRunner id false w with ⟨⟨u, err⟩, w1⟩
    exact ⟨_, _, Service.Get_logged lib id w log (p.storage lib) .qRunner u err w1
      (fun _ _ _ => rfl) hop⟩
  · intro db txlog
    exact Service.Get_begins_nothing lib id w txlog db
  · intro mock
    rcases hop : mock.Delete .nil id w with ⟨err, w1⟩
    exact ⟨_, _, Service.Delete_logged lib id w log (testStorage mock) .nil err w1
      (fun _ _ _ => rfl) hop⟩
  · intro p
    rcases hop : p.Delete lib .qRunner id w with ⟨err, w1⟩
    exact ⟨_, _, Service.Delete_logged lib id w log (p.storage lib) .qRunner err w1
      (fun _ _ _ => rfl) hop⟩
  · intro db txlog
    exact Service.Delete_begins_nothing lib id w txlog db
  · intro hvalid
    refine ⟨?_, ?_, ?_⟩
    · intro mock
      rcases hop : mock.Persist .nil (Service.createRecord (clock w) user) w
        with ⟨⟨pid, err⟩, w1⟩
      exact ⟨_, _, Service.Create_logged_test lib clock user w log mock pid err w1 hvalid hop⟩
    · intro p tx w1 hbegin
      rcases hop : p.Persist lib (.txRunner tx) (Service.createRecord (clock w1) user) w1
        with ⟨⟨pid, err⟩, w2⟩
      have h := Service.Create_logged_postgres lib clock user w log p tx w1 pid err w2 hvalid
        hbegin hop
      cases err with
      | some e => exact ⟨_, _, h⟩
      | none => exact ⟨_, _, h⟩
    · intro p e w1 hbegin
      exact ⟨_, Service.Create_logged_postgres_down lib clock user w log p e w1 hvalid hbegin⟩
  · intro hvalid
    refine ⟨?_, ?_, ?_⟩
    · intro mock
      rcases hop : mock.Update .nil id (Service.updateRecord (clock w) user) w
        with ⟨⟨o, err⟩, w1⟩
      exact ⟨_, _, Service.Update_logged_test lib clock id user w log mock o err w1 hvalid hop⟩
    · intro p tx w1 hbegin
      rcases hop : p.Update lib (.txRunner tx) id (Service.updateRecord (clock w1) user) w1
        with ⟨⟨o, err⟩, w2⟩
      have h := Service.Update_logged_postgres lib clock id user w log p tx w1 o err w2 hvalid
        hbegin hop
      cases err with
      | some e => exact ⟨_, _, h⟩
      | none => exact ⟨_, _, h⟩
    · intro p e w1 hbegin
      exact ⟨_, Service.Update_logged_postgres_down lib clock id user w log p e w1 hvalid
        hbegin⟩

theorem Service.transaction_scope_witness :
    (∃ res wf, (NewService (some (testStorage sampleStorage).logged)).Update sampleLib
        (fun _ => ⟨7, false⟩) "1-2-3-4" sampleUpdateEntity ((), [])
      = .returned (res,
          (wf, [.WithTx,
            .Update .nil "1-2-3-4" (Service.updateRecord ⟨7, false⟩ sampleUpdateEntity)]))) ∧
    (∃ res wf, (NewService (some ((Postgres.mk sampleDB).storage sampleLib).logged)).Create
        sampleLib (fun _ => ⟨7, false⟩) sampleEntity (0, [])
      = .returned (res,
          (wf, [.WithTx,
            .Persist (.txRunner 0) (Service.createRecord ⟨7, false⟩ sampleEntity)]))) ∧
    (∃ res, (NewService (some ((Postgres.mk sampleDownDB).storage sampleLib).logged)).Create
        sampleLib (fun _ => ⟨7, false⟩) sampleEntity (0, [])
      = .returned (res, (0, [.WithTx]))) :=
  ⟨((Service.transaction_scope sampleLib (fun _ => ⟨7, false⟩) "1-2-3-4" sampleUpdateEntity ()
      []).2.2.2 (by decide)).1 sampleStorage,
    ((Service.transaction_scope sampleLib (fun _ => ⟨7, false⟩) "1-2-3-4" sampleEntity 0
      []).2.2.1 (by decide)).2.1 (Postgres.mk sampleDB) 0 1 rfl,
    ((Service.transaction_scope sampleLib (fun _ => ⟨7, false⟩) "1-2-3-4" sampleEntity 0
      []).2.2.1 (by decide)).2.2 (Postgres.mk sampleDownDB) sampleBadConn 0 rfl⟩

end FaceitUsers
